import Mathlib

/-!
Verification of the updraft Bluesky year-in-review analytics engine.

The definitions below are shallow embeddings of the TypeScript source
(backend `services/bluesky.ts` and `routes/bluesky.ts`).  JavaScript
numbers are modelled as `Nat` / `Int` / `ℚ` (sums of integer counts and
their exact rational quotients), timestamps as explicit UTC calendar
components or epoch instants, and the mutable page-walk state of the
fetcher as explicit recursion parameters.
-/

namespace Updraft

/-! ### Paginated fetcher (`getAllAuthorPosts`)

A synthetic paginated feed is a list of pages, each page a list of post
timestamps (epoch milliseconds, `Int`).  The upstream cursor is present
exactly when further pages remain, so the remaining-page list plays the
role of the cursor.  The mutable loop state (`allPosts`, `iterations`,
`foundPostsFromYear`, `consecutivePagesWithoutTargetYear`) is threaded
through the recursion; the fuel argument is `maxIterations` minus the
number of iterations already performed, so the `while (iterations <
maxIterations)` guard becomes the `0` fuel case.  -/

/-- One page classification: the retained target-year timestamps, in feed
order (`postTime >= yearStart && postTime < yearEnd`). -/
def keptOfPage (yearStart yearEnd : Int) (page : List Int) : List Int :=
  page.filter (fun t => yearStart ≤ t && t < yearEnd)

/-- `hasOlderPosts` for one page: some item is strictly before `yearStart`. -/
def pageHasOlder (yearStart : Int) (page : List Int) : Bool :=
  page.any (fun t => t < yearStart)

/-- The page-walk loop of `getAllAuthorPosts`.  Arguments after the fuel:
remaining pages, collected posts, `iterations`, `foundPostsFromYear`,
`consecutivePagesWithoutTargetYear`.  Returns `(allPosts, iterations)`. -/
def fetchGo (yearStart yearEnd : Int) :
    Nat → List (List Int) → List Int → Nat → Bool → Nat → List Int × Nat
  | 0, _, acc, iters, _, _ => (acc, iters)
  | _ + 1, [], acc, iters, _, _ =>
      -- a request past the last page returns an empty feed: record the
      -- iteration and break
      (acc, iters + 1)
  | fuel + 1, page :: rest, acc, iters, found, consec =>
      let iters' := iters + 1
      if page.isEmpty then (acc, iters')   -- "No more posts in feed"
      else
        let kept := keptOfPage yearStart yearEnd page
        let hasOlder := pageHasOlder yearStart page
        let acc' := acc ++ kept
        let found' := found || !kept.isEmpty
        let consec' := if kept.isEmpty then consec + 1 else 0
        if rest.isEmpty then (acc', iters')  -- no cursor: end of feed
        else if found' && decide (5 ≤ consec') && hasOlder then (acc', iters')
        else fetchGo yearStart yearEnd fuel rest acc' iters' found' consec'

/-- `getAllAuthorPosts` over a synthetic paginated source: pages of the
author feed walked newest-first with `maxIterations = 100`. -/
def getAllAuthorPosts (yearStart yearEnd : Int) (pages : List (List Int)) :
    List Int × Nat :=
  fetchGo yearStart yearEnd 100 pages [] 0 false 0

theorem mem_keptOfPage {ys ye t : Int} {page : List Int}
    (h : t ∈ keptOfPage ys ye page) : ys ≤ t ∧ t < ye := by
  have hp := List.of_mem_filter h
  simpa using hp

/-- Every timestamp the loop collects lies in `[yearStart, yearEnd)`,
provided the accumulator starts that way. -/
theorem fetchGo_mem_range (ys ye : Int) :
    ∀ (fuel : Nat) (pages : List (List Int)) (acc : List Int) (iters : Nat)
      (found : Bool) (consec : Nat),
      (∀ t ∈ acc, ys ≤ t ∧ t < ye) →
      ∀ t ∈ (fetchGo ys ye fuel pages acc iters found consec).1,
        ys ≤ t ∧ t < ye := by
  intro fuel
  induction fuel with
  | zero =>
      intro pages acc iters found consec hacc t ht
      exact hacc t ht
  | succ n ih =>
      intro pages acc iters found consec hacc t ht
      cases pages with
      | nil => exact hacc t ht
      | cons page rest =>
          have haccKept : ∀ u ∈ acc ++ keptOfPage ys ye page, ys ≤ u ∧ u < ye := by
            intro u hu
            rcases List.mem_append.1 hu with hu | hu
            · exact hacc u hu
            · exact mem_keptOfPage hu
          simp only [fetchGo] at ht
          repeat' split at ht
          all_goals
            first
            | exact hacc t ht
            | exact haccKept t ht
            | exact ih rest _ _ _ _ haccKept t ht

/-- Unfolding of one loop iteration over a page that is entirely
pre-`yearStart`, with a target-year post already found: nothing is kept,
the consecutive counter advances, and the early-stop triple fires as soon
as it reaches 5. -/
theorem fetchGo_step_old {ys ye : Int} {page : List Int} {rest : List (List Int)}
    {acc : List Int} {n iters consec : Nat}
    (hemp : page.isEmpty = false)
    (hkept : keptOfPage ys ye page = [])
    (holder : pageHasOlder ys page = true) :
    fetchGo ys ye (n + 1) (page :: rest) acc iters true consec =
      if rest.isEmpty then (acc, iters + 1)
      else if 5 ≤ consec + 1 then (acc, iters + 1)
      else fetchGo ys ye n rest acc (iters + 1) true (consec + 1) := by
  simp [fetchGo, hemp, hkept, holder]

/-- Unfolding of one loop iteration over a page containing at least one
target-year post: the kept posts are appended, `foundPostsFromYear`
becomes true and the consecutive counter resets, so the early stop cannot
fire on this iteration. -/
theorem fetchGo_step_target {ys ye : Int} {page : List Int} {rest : List (List Int)}
    {acc : List Int} {n iters consec : Nat} {found : Bool}
    (hne : keptOfPage ys ye page ≠ []) :
    fetchGo ys ye (n + 1) (page :: rest) acc iters found consec =
      if rest.isEmpty then (acc ++ keptOfPage ys ye page, iters + 1)
      else fetchGo ys ye n rest (acc ++ keptOfPage ys ye page) (iters + 1) true 0 := by
  have hemp : page.isEmpty = false := by
    cases page with
    | nil => simp [keptOfPage] at hne
    | cons t ts => rfl
  have hk : (keptOfPage ys ye page).isEmpty = false := by
    cases h : keptOfPage ys ye page with
    | nil => exact absurd h hne
    | cons u us => rfl
  simp [fetchGo, hemp, hk]

/-- Once at least one target-year post has been seen, a suffix made only of
pre-`yearStart` pages is abandoned within `max (5 - consec) 1` further
iterations: each page adds one to the consecutive-empty counter and shows
older posts, so the early-stop triple fires. -/
theorem fetchGo_old_pages_iters (ys ye : Int) :
    ∀ (pages : List (List Int)) (fuel : Nat) (acc : List Int) (iters consec : Nat),
      (∀ p ∈ pages, ∀ t ∈ p, t < ys) →
      (fetchGo ys ye fuel pages acc iters true consec).2 ≤
        iters + max (5 - consec) 1 := by
  intro pages
  induction pages with
  | nil =>
      intro fuel acc iters consec _
      cases fuel with
      | zero => simp [fetchGo]
      | succ n =>
          show iters + 1 ≤ iters + max (5 - consec) 1
          omega
  | cons page rest ih =>
      intro fuel acc iters consec hold
      cases fuel with
      | zero => simp [fetchGo]
      | succ n =>
          by_cases hemp : page.isEmpty = true
          · show (fetchGo ys ye (n + 1) (page :: rest) acc iters true consec).2 ≤ _
            simp only [fetchGo, hemp, if_true]
            omega
          · have hkept : keptOfPage ys ye page = [] := by
              refine List.filter_eq_nil_iff.2 ?_
              intro t htp
              have h1 := hold page (List.mem_cons_self _ _) t htp
              simp only [Bool.and_eq_true, decide_eq_true_eq]
              omega
            have holder : pageHasOlder ys page = true := by
              cases page with
              | nil => simp at hemp
              | cons t ts =>
                  have h1 := hold (t :: ts) (List.mem_cons_self _ _) t
                    (List.mem_cons_self _ _)
                  simp only [pageHasOlder, List.any_cons, Bool.or_eq_true,
                    decide_eq_true_eq]
                  exact Or.inl h1
            have hold' : ∀ p ∈ rest, ∀ t ∈ p, t < ys :=
              fun p hp => hold p (List.mem_cons_of_mem _ hp)
            have hemp' : page.isEmpty = false := by
              cases h : page.isEmpty with
              | true => exact absurd h hemp
              | false => rfl
            rw [fetchGo_step_old hemp' hkept holder]
            split_ifs with h1 h2
            · show iters + 1 ≤ _
              omega
            · show iters + 1 ≤ _
              omega
            · have h3 := ih n acc (iters + 1) (consec + 1) hold'
              omega

/-- Walking a nonempty prefix of pages that each contain a target-year
post, followed by only pre-`yearStart` pages, takes at most
`length of prefix + 5` iterations. -/
theorem fetchGo_prefix_iters (ys ye : Int) :
    ∀ (tpages : List (List Int)) (fuel : Nat) (opages : List (List Int))
      (acc : List Int) (iters : Nat) (found : Bool) (consec : Nat),
      tpages ≠ [] →
      (∀ p ∈ tpages, ∃ t ∈ p, ys ≤ t ∧ t < ye) →
      (∀ p ∈ opages, ∀ t ∈ p, t < ys) →
      (fetchGo ys ye fuel (tpages ++ opages) acc iters found consec).2 ≤
        iters + tpages.length + 5 := by
  intro tpages
  induction tpages with
  | nil => intro _ _ _ _ _ _ h; exact absurd rfl h
  | cons page rest ih =>
      intro fuel opages acc iters found consec _ htarget hold
      cases fuel with
      | zero =>
          show iters ≤ _
          omega
      | succ n =>
          have hne : keptOfPage ys ye page ≠ [] := by
            obtain ⟨t, htp, h1, h2⟩ := htarget page (List.mem_cons_self _ _)
            intro hnil
            have : t ∈ keptOfPage ys ye page :=
              List.mem_filter.2 ⟨htp, by simp [h1, h2]⟩
            rw [hnil] at this
            exact absurd this (List.not_mem_nil t)
          rw [List.cons_append, fetchGo_step_target hne]
          split_ifs with h1
          · show iters + 1 ≤ _
            omega
          · cases rest with
            | nil =>
                have h2 := fetchGo_old_pages_iters ys ye opages n
                  (acc ++ keptOfPage ys ye page) (iters + 1) 0 hold
                simpa using Nat.le_trans h2 (by omega)
            | cons q qs =>
                have h2 := ih n opages (acc ++ keptOfPage ys ye page)
                  (iters + 1) true 0 (by simp)
                  (fun p hp => htarget p (List.mem_cons_of_mem _ hp)) hold
                calc (fetchGo ys ye n ((q :: qs) ++ opages)
                        (acc ++ keptOfPage ys ye page) (iters + 1) true 0).2 ≤
                      (iters + 1) + (q :: qs).length + 5 := h2
                  _ ≤ iters + (page :: q :: qs).length + 5 := by
                      simp [List.length_cons]
                      omega

/-- C1.  For a synthetic paginated feed `tpages ++ opages` in which the
(nonempty) first `K = tpages.length` pages each contain at least one
post with timestamp in `[yearStart, yearEnd)` and all later pages hold
only posts strictly before `yearStart`, `getAllAuthorPosts` finishes
within `K + 5` page iterations, and every timestamp it returns lies in
`[yearStart, yearEnd)` (so nothing before `yearStart` or at/after
`yearEnd` is ever included). -/
theorem getAllAuthorPosts_early_stop (ys ye : Int)
    (tpages opages : List (List Int))
    (hK : tpages ≠ [])
    (htarget : ∀ p ∈ tpages, ∃ t ∈ p, ys ≤ t ∧ t < ye)
    (hold : ∀ p ∈ opages, ∀ t ∈ p, t < ys) :
    (getAllAuthorPosts ys ye (tpages ++ opages)).2 ≤ tpages.length + 5 ∧
    ∀ t ∈ (getAllAuthorPosts ys ye (tpages ++ opages)).1, ys ≤ t ∧ t < ye := by
  constructor
  · have h := fetchGo_prefix_iters ys ye tpages 100 opages [] 0 false 0
      hK htarget hold
    simpa using h
  · exact fetchGo_mem_range ys ye 100 (tpages ++ opages) [] 0 false 0
      (by intro t ht; exact absurd ht (List.not_mem_nil t))

/-- Witness for C1 at a concrete two-page feed: one page with a
target-year post (`5 ∈ [0, 10)`), then one page entirely before the
window. -/
theorem getAllAuthorPosts_early_stop_witness :
    (getAllAuthorPosts 0 10 [[5], [-3]]).2 ≤ 1 + 5 ∧
    ∀ t ∈ (getAllAuthorPosts 0 10 [[5], [-3]]).1, 0 ≤ t ∧ t < 10 := by
  have h := getAllAuthorPosts_early_stop 0 10 [[5]] [[-3]]
    (by decide) (by decide) (by decide)
  simpa using h

/-! ### Calendar arithmetic and `getLocalTimeComponents`

UTC timestamps are modelled by their calendar components, which is
exactly the information the source reads off a parsed `Date` via the
`getUTC*` accessors.  `new Date(y, m + 1, 0).getDate()` is the number of
days in 0-based month `m` of year `y`; the weekday and the epoch instant
of a civil date are computed with the standard proleptic-Gregorian
day-count (1970-01-01 = day 0, a Thursday). -/

/-- A UTC instant as its calendar components (`getUTCFullYear`,
`getUTCMonth` (0-based), `getUTCDate`, `getUTCHours`, `getUTCMinutes`,
`getUTCSeconds`). -/
structure UTCTime where
  year : Int
  month : Int
  day : Int
  hour : Int
  minute : Int
  second : Int
deriving DecidableEq, Repr

def isLeapYear (y : Int) : Bool :=
  y % 4 == 0 && (y % 100 != 0 || y % 400 == 0)

/-- Days in 0-based month `m` of year `y` (`new Date(y, m + 1, 0).getDate()`). -/
def daysInMonth (y m : Int) : Int :=
  if m = 1 then (if isLeapYear y then 29 else 28)
  else if m = 3 ∨ m = 5 ∨ m = 8 ∨ m = 10 then 30
  else 31

/-- Days since 1970-01-01 of the civil date `(y, m, d)` with `m` 1-based
(Gregorian day-count; negative before the epoch). -/
def daysFromCivil (y m d : Int) : Int :=
  let y2 := if m ≤ 2 then y - 1 else y
  let era := Int.fdiv y2 400
  let yoe := y2 - era * 400
  let mp := if m > 2 then m - 3 else m + 9
  let doy := Int.fdiv (153 * mp + 2) 5 + d - 1
  let doe := yoe * 365 + Int.fdiv yoe 4 - Int.fdiv yoe 100 + doy
  era * 146097 + doe - 719468

def monthNames : List String :=
  ["January", "February", "March", "April", "May", "June",
   "July", "August", "September", "October", "November", "December"]

def dayNames : List String :=
  ["Sunday", "Monday", "Tuesday", "Wednesday", "Thursday", "Friday", "Saturday"]

/-- English weekday name of the civil date whose day-count is `n`
(`getUTCDay`: 0 = Sunday; day 0 of the epoch is a Thursday). -/
def weekdayName (n : Int) : String :=
  dayNames.getD ((n + 4) % 7).toNat "Unknown"

/-- The epoch instant, in milliseconds, of a UTC timestamp
(`new Date(iso).getTime()`). -/
def utcEpochMillis (t : UTCTime) : Int :=
  (daysFromCivil t.year (t.month + 1) t.day * 86400 +
    t.hour * 3600 + t.minute * 60 + t.second) * 1000

/-- The local-time components the analyzers consume: the civil date in
the viewer's timezone, its English month and weekday names, the local
hour, and the day-count of the local date (which stands for the
`YYYY-MM-DD` `dateStr`: padded ISO date strings compare and equate
exactly as their day-counts do). -/
structure LocalTime where
  localYear : Int
  localMonth : Int
  localDateNum : Int
  month : String
  day : String
  hour : Int
  dayNumber : Int
deriving DecidableEq, Repr

/-- `getLocalTimeComponents(utcTimestamp, timezoneOffsetMinutes)`:
converts a UTC timestamp to the viewer's wall clock by pure calendar
arithmetic, adding the offset (minutes ahead of UTC) and handling the
minute/hour/day/month/year rollover explicitly, including month lengths
and leap years.  `Math.floor` of a real quotient is floor division. -/
def getLocalTimeComponents (t : UTCTime) (timezoneOffsetMinutes : Int) : LocalTime :=
  let totalMinutes := t.minute + timezoneOffsetMinutes
  let localHours := (t.hour + Int.fdiv totalMinutes 60 + 24) % 24
  let hoursDiff := Int.fdiv (t.minute + timezoneOffsetMinutes) 60
  let adjustedHours := t.hour + hoursDiff
  let ymd : Int × Int × Int :=
    if adjustedHours < 0 then
      -- previous day
      let d := t.day - 1
      if d < 1 then
        let m := t.month - 1
        let (y2, m2) := if m < 0 then (t.year - 1, (11 : Int)) else (t.year, m)
        (y2, m2, daysInMonth y2 m2)
      else (t.year, t.month, d)
    else if 24 ≤ adjustedHours then
      -- next day
      let d := t.day + 1
      if daysInMonth t.year t.month < d then
        let m := t.month + 1
        if 11 < m then (t.year + 1, 0, 1) else (t.year, m, 1)
      else (t.year, t.month, d)
    else (t.year, t.month, t.day)
  let localYear := ymd.1
  let localMonth := ymd.2.1
  let localDateNum := ymd.2.2
  let dn := daysFromCivil localYear (localMonth + 1) localDateNum
  { localYear := localYear
    localMonth := localMonth
    localDateNum := localDateNum
    month := monthNames.getD localMonth.toNat "Unknown"
    day := weekdayName dn
    hour := localHours
    dayNumber := dn }

example : daysFromCivil 1970 1 1 = 0 := by decide
example : daysFromCivil 1970 1 2 = 1 := by decide
example : daysFromCivil 2024 3 1 = daysFromCivil 2024 2 29 + 1 := by decide
example : weekdayName (daysFromCivil 2025 6 15) = "Sunday" := by decide
example :
    (getLocalTimeComponents ⟨2025, 5, 15, 23, 30, 0⟩ 120).hour = 1 := by decide
example :
    (getLocalTimeComponents ⟨2025, 5, 15, 23, 30, 0⟩ 120).day = "Monday" := by decide
example :
    (getLocalTimeComponents ⟨2025, 0, 1, 0, 30, 0⟩ (-60)).localYear = 2024 := by
  decide

/-! ### Feed data model

Shapes of the upstream feed objects, restricted to the fields the
analytics engine reads.  Optional upstream fields (`likeCount || 0`,
`displayName || handle`, `avatar || ""`, missing `text`) are totalized:
a missing count is 0 and a missing string is `""`, exactly the value the
source's `||` fallbacks substitute. -/

/-- `record.embed?.$type`, restricted to the constructors the engine
distinguishes (`app.bsky.embed.images`, `app.bsky.embed.video`,
`app.bsky.embed.record`); everything else, including an absent embed,
behaves uniformly and is `none` / `other`. -/
inductive EmbedType
  | none
  | images
  | video
  | record
  | other
deriving DecidableEq, Repr

structure PostRecord where
  createdAt : UTCTime
  text : String
  isReply : Bool
  embed : EmbedType
deriving DecidableEq, Repr

structure PostView where
  uri : String
  authorDid : String
  record : PostRecord
  likeCount : Nat
  repostCount : Nat
  replyCount : Nat
deriving DecidableEq, Repr

/-- One element of the author feed (`item.post`). -/
structure FeedItem where
  post : PostView
deriving DecidableEq, Repr

structure Profile where
  did : String
  handle : String
  displayName : String
  avatar : String
  followersCount : Nat
  followsCount : Nat
deriving DecidableEq, Repr

/-- An account appearing on a like/repost edge. -/
structure Actor where
  did : String
  handle : String
  displayName : String
  avatar : String
deriving DecidableEq, Repr

/-! ### JS helpers

`Array.prototype.sort` with a numeric comparator is a stable sort; the
comparator `(a, b) => score(b) - score(a)` therefore yields descending
`score` with ties keeping encounter order, which is exactly
`List.insertionSort` with the total preorder `score b ≤ score a`.
JS objects with non-index string keys enumerate in insertion order, so
such a tally object is an association list extended at the end on first
encounter. -/

instance decRelScoreDesc {α : Type} (score : α → Nat) :
    DecidableRel (fun a b : α => score b ≤ score a) :=
  fun _ _ => Nat.decLe _ _

/-- Stable descending sort by a numeric score (JS
`sort((a, b) => score(b) - score(a))`). -/
def sortByDesc {α : Type} (score : α → Nat) (l : List α) : List α :=
  List.insertionSort (fun a b => score b ≤ score a) l

instance decRelKeyAsc {α : Type} (key : α → Int) :
    DecidableRel (fun a b : α => key a ≤ key b) :=
  fun _ _ => Int.decLe _ _

/-- Stable ascending sort by an integer key (JS
`sort((a, b) => key(a) - key(b))`). -/
def sortByAsc {α : Type} (key : α → Int) (l : List α) : List α :=
  List.insertionSort (fun a b => key a ≤ key b) l

/-- Increment the count of `key` in an insertion-ordered tally,
appending a fresh entry on first encounter. -/
def bumpCount {α : Type} [DecidableEq α] (key : α) :
    List (α × Nat) → List (α × Nat)
  | [] => [(key, 1)]
  | (k, c) :: rest =>
      if k = key then (k, c + 1) :: rest else (k, c) :: bumpCount key rest

/-- `Math.round` (half rounds up), as the source applies it to exact
rational quotients of integer counts.  Used in specification statements;
the executable model computes the same value with `jsRoundNat`. -/
def jsRound (q : ℚ) : ℤ := ⌊q + 1 / 2⌋

/-- `Math.round(a / b)` for natural `a` and positive natural `b`:
`⌊a/b + 1/2⌋ = ⌊(2a+b)/(2b)⌋`, with the source's `b = 0 → 0` guards
mapping to `Nat` division by zero. -/
def jsRoundNat (a b : Nat) : Nat := (2 * a + b) / (2 * b)

example : jsRoundNat 7 2 = 4 := by decide
example : jsRoundNat 5 4 = 1 := by decide
example : jsRoundNat 0 5 = 0 := by decide

/-- The guarded average `den > 0 ? num / den : 0` exceeds the constant
`p / q` (`q > 0`), decided by exact cross-multiplication. -/
def avgGtFrac (num den p q : Nat) : Bool :=
  if den = 0 then false else decide (p * den < num * q)

/-- The guarded average `den > 0 ? num / den : 0` is below the constant
`p / q` (`q > 0`), decided by exact cross-multiplication. -/
def avgLtFrac (num den p q : Nat) : Bool :=
  if den = 0 then decide (0 < p) else decide (num * q < p * den)

theorem avgGtFrac_eq (num den p q : Nat) (hq : 0 < q) :
    avgGtFrac num den p q =
      decide ((p : ℚ) / q < (if den = 0 then 0 else (num : ℚ) / den)) := by
  rcases Nat.eq_zero_or_pos den with h | h
  · subst h
    have h0 : ¬ ((p : ℚ) / q < 0) := not_lt.2 (by positivity)
    simp [avgGtFrac, h0]
  · have hd0 : den ≠ 0 := Nat.pos_iff_ne_zero.1 h
    simp only [avgGtFrac, if_neg hd0]
    rw [decide_eq_decide, div_lt_div_iff (by positivity) (by positivity)]
    exact_mod_cast Iff.rfl

theorem avgLtFrac_eq (num den p q : Nat) (hq : 0 < q) :
    avgLtFrac num den p q =
      decide ((if den = 0 then 0 else (num : ℚ) / den) < (p : ℚ) / q) := by
  have hq' : (0 : ℚ) < q := by positivity
  rcases Nat.eq_zero_or_pos den with h | h
  · subst h
    simp only [avgLtFrac, if_true, Nat.reduceEqDiff, reduceIte]
    rw [decide_eq_decide, lt_div_iff hq', zero_mul]
    exact_mod_cast Iff.rfl
  · have hd0 : den ≠ 0 := Nat.pos_iff_ne_zero.1 h
    simp only [avgLtFrac, if_neg hd0]
    rw [decide_eq_decide, div_lt_div_iff (by positivity) hq']
    exact_mod_cast Iff.rfl

/-! ### The streak computation

`postDates` is a `Set` of local `YYYY-MM-DD` strings;
`Array.from(postDates).sort()` sorts them lexicographically, which for
padded ISO dates is exactly ascending day-count order, and
`(currDate - prevDate) / 86400000` 〈floored〉 between two such dates is
exactly the difference of their day-counts.  The set of date keys is
therefore modelled as the strictly ascending list of distinct
day-counts. -/

/-- Insert a day into the strictly ascending distinct list of days. -/
def insertSortedDistinct (d : Int) : List Int → List Int
  | [] => [d]
  | x :: xs =>
      if d < x then d :: x :: xs
      else if d = x then x :: xs
      else x :: insertSortedDistinct d xs

/-- The strictly ascending list of the distinct elements of `l`
(`Array.from(new Set(dates)).sort()`). -/
def sortedDistinctDates (l : List Int) : List Int :=
  l.foldr insertSortedDistinct []

/-- The streak loop: `prev` is the previous date, `longest`/`current`
the running state; gap 1 extends the current streak, any other gap
folds the current streak into the maximum and restarts at 1. -/
def streakGo : Int → List Int → Nat → Nat → Nat
  | _, [], longest, current => max longest current
  | prev, d :: rest, longest, current =>
      if d - prev = 1 then streakGo d rest longest (current + 1)
      else streakGo d rest (max longest current) 1

/-- `longestStreak` over the sorted distinct date list: the loop starts
with `longest = 0`, `current = 1` and ends with
`longestStreak = max longest current`, so the empty list yields 1. -/
def longestStreakOfDates : List Int → Nat
  | [] => 1
  | d :: rest => streakGo d rest 0 1

example : longestStreakOfDates [3, 4, 5, 9, 10] = 3 := by decide
example : longestStreakOfDates [] = 1 := by decide
example : longestStreakOfDates [7] = 1 := by decide


/-! ### Topic extraction (`analyzeTopics`)

The cleaning pipeline lowercases the text, strips URL / mention /
hashtag matches, treats quote characters as separators, splits on
whitespace and keeps only `a-z` letters.  None of the stripped patterns
can span whitespace, so the whole-text regex passes of the source are
applied per whitespace-separated token, which is equivalent. -/

/-- `\w` of the source regexes. -/
def isWordChar (c : Char) : Bool := c.isAlphanum || c == '_'

/-- `toLowerCase` (ASCII case mapping, which covers every character the
later `[^a-z]` filter can keep). -/
def jsToLower (s : String) : String := String.mk (s.data.map Char.toLower)

/-- Does `l` begin with a URL-scheme match of `https?:\/\/[^\s]+`?
Inside a whitespace-free token the `[^\s]+` requirement is exactly
"at least one character after the scheme". -/
def isUrlStart (l : List Char) : Bool :=
  ("http://".data.isPrefixOf l && decide (7 < l.length)) ||
  ("https://".data.isPrefixOf l && decide (8 < l.length))

/-- Remove URL matches from a whitespace-free token: from the first
scheme occurrence with at least one character after it, the greedy
`[^\s]+` consumes the rest of the token. -/
def stripUrlTok : List Char → List Char
  | [] => []
  | c :: cs => if isUrlStart (c :: cs) then [] else c :: stripUrlTok cs

/-- Remove every `mark` followed by a nonempty `\w+` run (`/@\w+/g`,
`/#\w+/g`).  The fuel starts at the length of the token and every step
consumes at least one character, so it never runs out. -/
def stripMarkedGo (mark : Char) : Nat → List Char → List Char
  | 0, l => l
  | _ + 1, [] => []
  | fuel + 1, c :: cs =>
      if c == mark && !(cs.takeWhile isWordChar).isEmpty then
        stripMarkedGo mark fuel (cs.dropWhile isWordChar)
      else c :: stripMarkedGo mark fuel cs

def stripMarked (mark : Char) (l : List Char) : List Char :=
  stripMarkedGo mark l.length l

/-- Split a character list at separator characters satisfying `p`
(pieces may be empty; callers drop the empties, as the source's later
filters do). -/
def splitChars (p : Char → Bool) : List Char → List (List Char)
  | [] => [[]]
  | c :: cs =>
      match splitChars p cs with
      | [] => [[c]]
      | w :: ws => if p c then [] :: w :: ws else (c :: w) :: ws

def isQuoteChar (c : Char) : Bool := c == '\'' || c == '"'

def isAsciiLower (c : Char) : Bool := 'a' ≤ c && c ≤ 'z'

/-- `w.replace(/[^a-z]/g, '')`. -/
def keepLowerLetters (w : List Char) : List Char := w.filter isAsciiLower

def isAllDigits (w : List Char) : Bool := !w.isEmpty && w.all Char.isDigit

/-- Does `sub` occur as a contiguous substring of `l`? (`w.includes(sub)`.) -/
def listHasInfix (l sub : List Char) : Bool :=
  match l with
  | [] => sub.isEmpty
  | c :: cs => sub.isPrefixOf (c :: cs) || listHasInfix cs sub

def containsSub (w sub : String) : Bool := listHasInfix w.data sub.data

/-- `w.endsWith(sub)`. -/
def endsWithStr (w sub : String) : Bool :=
  sub.data.reverse.isPrefixOf w.data.reverse

/-- The stop-word set, ported verbatim (the source stores it in a `Set`;
duplicate entries are harmless for membership). -/
def stopWords : List String :=
  [
   "the", "a", "an", "and", "or", "but", "in", "on",
   "at", "to", "for", "of", "with", "by", "from", "as",
   "is", "was", "are", "were", "be", "been", "being", "have",
   "has", "had", "do", "does", "did", "will", "would", "could",
   "should", "may", "might", "must", "can", "cant", "cannot", "i",
   "you", "he", "she", "it", "we", "they", "me", "him",
   "her", "us", "them", "this", "that", "these", "those", "my",
   "your", "his", "her", "its", "our", "their", "mine", "yours",
   "hers", "ours", "theirs", "get", "got", "gets", "getting", "go",
   "goes", "went", "gone", "going", "come", "comes", "came", "coming",
   "see", "saw", "seen", "sees", "seeing", "know", "knew", "known",
   "knows", "knowing", "think", "thinks", "thought", "thinking", "say", "says",
   "said", "saying", "tell", "tells", "told", "telling", "make", "makes",
   "made", "making", "take", "takes", "took", "taken", "taking", "give",
   "gives", "gave", "given", "giving", "use", "uses", "used", "using",
   "want", "wants", "wanted", "wanting", "need", "needs", "needed", "needing",
   "try", "tries", "tried", "trying", "look", "looks", "looked", "looking",
   "find", "finds", "found", "finding", "work", "works", "worked", "working",
   "play", "plays", "played", "playing", "call", "calls", "called", "calling",
   "ask", "asks", "asked", "asking", "like", "likes", "liked", "liking",
   "feel", "feels", "felt", "feeling", "mean", "means", "meant", "meaning",
   "keep", "keeps", "kept", "keeping", "let", "lets", "let", "letting",
   "put", "puts", "put", "putting", "show", "shows", "showed", "shown",
   "showing", "seem", "seems", "seemed", "seeming", "more", "most", "much",
   "many", "some", "any", "all", "both", "each", "every", "few",
   "little", "less", "least", "very", "really", "quite", "too", "so",
   "just", "only", "even", "still", "also", "already", "yet", "again",
   "good", "better", "best", "bad", "worse", "worst", "big", "small",
   "large", "long", "short", "high", "low", "new", "old", "young",
   "first", "last", "next", "same", "different", "other", "another", "right",
   "wrong", "true", "false", "sure", "maybe", "probably", "actually", "really",
   "cool", "nice", "great", "awesome", "amazing", "interesting", "funny", "weird",
   "strange", "weird", "easy", "hard", "simple", "complex", "important", "special",
   "normal", "usual", "common", "rare", "thing", "things", "stuff", "way",
   "ways", "time", "times", "day", "days", "today", "tomorrow", "yesterday",
   "year", "years", "week", "weeks", "month", "months", "hour", "hours",
   "minute", "minutes", "moment", "moments", "people", "person", "man", "men",
   "woman", "women", "child", "children", "guy", "guys", "dude", "dudes",
   "place", "places", "part", "parts", "kind", "kinds", "sort", "sorts",
   "type", "types", "life", "world", "house", "home", "school", "work",
   "job", "money", "car", "food", "water", "lot", "lots", "bit",
   "bits", "piece", "pieces", "point", "points", "case", "cases", "about",
   "above", "across", "after", "against", "along", "among", "around", "before",
   "behind", "below", "beneath", "beside", "between", "beyond", "during", "except",
   "inside", "into", "near", "outside", "over", "since", "through", "throughout",
   "toward", "towards", "under", "until", "upon", "within", "without", "than",
   "then", "when", "where", "while", "why", "how", "what", "which",
   "who", "whom", "whose", "dont", "doesnt", "didnt", "wont", "wouldnt",
   "couldnt", "shouldnt", "cant", "isnt", "arent", "wasnt", "werent", "havent",
   "hasnt", "hadnt", "isnt", "arent", "wasnt", "werent", "thats", "thats",
   "theres", "heres", "wheres", "whos", "whats", "hows", "whys", "whens",
   "wheres", "yeah", "yep", "nope", "ok", "okay", "yes", "no",
   "maybe", "perhaps", "probably", "definitely", "um", "uh", "ah", "oh",
   "well", "hmm", "huh", "https", "http", "www", "com", "bsky",
   "social", "twitter", "x", "facebook", "instagram", "bskysocial", "one", "two",
   "three", "four", "five", "six", "seven", "eight", "nine", "ten",
   "first", "second", "third", "back", "here", "there", "where", "everywhere",
   "nowhere", "somewhere", "anywhere", "up", "down", "out", "off", "away",
   "back", "forward", "ahead", "behind"]

/-- The filtered word list of one post. -/
def cleanWords (text : String) : List String :=
  let lower := (jsToLower text).data
  let toks0 := (splitChars (fun c => c.isWhitespace) lower).filter (fun w => !w.isEmpty)
  let toks1 := toks0.map (fun tok => stripMarked '#' (stripMarked '@' (stripUrlTok tok)))
  let toks2 := toks1.flatMap (fun tok => (splitChars isQuoteChar tok).filter (fun w => !w.isEmpty))
  let words := toks2.map (fun w => String.mk (keepLowerLetters w))
  words.filter (fun w =>
    !(decide (w.length < 4)) && !(stopWords.contains w) && !(isAllDigits w.data) &&
    !(containsSub w "social" || containsSub w "twitter" || containsSub w "facebook" ||
      containsSub w "instagram") &&
    !(endsWithStr w "com" || endsWithStr w "net" || endsWithStr w "org"))

structure Topics where
  topWords : List (String × Nat)
  topBigrams : List (String × Nat)
deriving DecidableEq, Repr

def analyzeTopics (posts : List FeedItem) : Topics :=
  let counts := posts.foldl
    (fun (counts : List (String × Nat) × List (String × Nat)) (item : FeedItem) =>
      let words := cleanWords item.post.record.text
      let wordCounts := words.foldl
        (fun m w =>
          if decide (4 ≤ w.length) && !stopWords.contains w then bumpCount w m else m)
        counts.1
      let bigramCounts := (words.zip words.tail).foldl
        (fun m wp =>
          if !wp.1.isEmpty && !wp.2.isEmpty &&
              decide (4 ≤ wp.1.length) && decide (4 ≤ wp.2.length) &&
              !stopWords.contains wp.1 && !stopWords.contains wp.2 then
            bumpCount (wp.1 ++ " " ++ wp.2) m
          else m)
        counts.2
      (wordCounts, bigramCounts))
    ([], [])
  { topWords := (sortByDesc Prod.snd (counts.1.filter (fun e => decide (3 ≤ e.2)))).take 10
    topBigrams := (sortByDesc Prod.snd (counts.2.filter (fun e => decide (2 ≤ e.2)))).take 5 }

/-! ### Emoji extraction (`analyzeEmojis`)

The Unicode `Emoji_Presentation` and `Emoji` character properties are
modelled over their principal code-point blocks (slightly wider inside
the miscellaneous-symbols/dingbats blocks, which is why the source
carries an explicit deny-list for the non-emoji symbols there). -/

def excludedEmojiCodePoints : List Nat :=
  [0x2640, 0x2642,
   0x2648, 0x2649, 0x264A, 0x264B, 0x264C, 0x264D, 0x264E, 0x264F,
   0x2713, 0x2714, 0x2715, 0x2716, 0x2717, 0x2718]

/-- `\p{Emoji_Presentation}` over its principal ranges. -/
def isEmojiPresentationChar (c : Char) : Bool :=
  let n := c.toNat
  (0x231A ≤ n && n ≤ 0x231B) || (0x23E9 ≤ n && n ≤ 0x23EC) ||
  n == 0x23F0 || n == 0x23F3 || (0x25FD ≤ n && n ≤ 0x25FE) ||
  (0x2614 ≤ n && n ≤ 0x2615) || (0x2648 ≤ n && n ≤ 0x2653) ||
  n == 0x267F || n == 0x2693 || n == 0x26A1 || (0x26AA ≤ n && n ≤ 0x26AB) ||
  (0x26BD ≤ n && n ≤ 0x26BE) || (0x26C4 ≤ n && n ≤ 0x26C5) || n == 0x26CE ||
  n == 0x26D4 || n == 0x26EA || (0x26F2 ≤ n && n ≤ 0x26F3) || n == 0x26F5 ||
  n == 0x26FA || n == 0x26FD || n == 0x2705 || (0x270A ≤ n && n ≤ 0x270B) ||
  n == 0x2728 || n == 0x274C || n == 0x274E || (0x2753 ≤ n && n ≤ 0x2755) ||
  n == 0x2757 || (0x2795 ≤ n && n ≤ 0x2797) || n == 0x27B0 || n == 0x27BF ||
  (0x2B1B ≤ n && n ≤ 0x2B1C) || n == 0x2B50 || n == 0x2B55 ||
  (0x1F004 ≤ n && n ≤ 0x1F9FF) || (0x1FA70 ≤ n && n ≤ 0x1FAFF)

/-- `\p{Emoji}` over its principal ranges: the presentation-default
emoji plus the text-default emoji characters (`#`, `*`, digits, `©`,
`®`, ™, the emoji arrows, and the miscellaneous-symbols / dingbats
blocks wholesale). -/
def isEmojiChar (c : Char) : Bool :=
  let n := c.toNat
  isEmojiPresentationChar c ||
  n == 0x23 || n == 0x2A || (0x30 ≤ n && n ≤ 0x39) || n == 0xA9 || n == 0xAE ||
  n == 0x203C || n == 0x2049 || n == 0x2122 || n == 0x2139 ||
  (0x2194 ≤ n && n ≤ 0x2199) || (0x21A9 ≤ n && n ≤ 0x21AA) ||
  n == 0x2328 || n == 0x23CF || (0x23E9 ≤ n && n ≤ 0x23FA) || n == 0x24C2 ||
  (0x25AA ≤ n && n ≤ 0x25AB) || n == 0x25B6 || n == 0x25C0 ||
  (0x25FB ≤ n && n ≤ 0x25FE) || (0x2600 ≤ n && n ≤ 0x27BF) ||
  (0x2934 ≤ n && n ≤ 0x2935) || (0x2B05 ≤ n && n ≤ 0x2B07) ||
  (0x2B1B ≤ n && n ≤ 0x2B1C) || n == 0x2B50 || n == 0x2B55 ||
  n == 0x3030 || n == 0x303D || n == 0x3297 || n == 0x3299

/-- The variation selector VS16 (U+FE0F). -/
def vs16 : Char := Char.ofNat 0xFE0F

/-- The match sequence of the source's emoji regex (alternation of
`\p{Emoji_Presentation}` and `\p{Emoji}` with an optional U+FE0F), in
order: a presentation emoji matches alone; otherwise an emoji character
absorbs one following variation selector. -/
def scanEmojis : List Char → List (List Char)
  | [] => []
  | c :: cs =>
      if isEmojiPresentationChar c then [c] :: scanEmojis cs
      else if isEmojiChar c then
        match cs with
        | fe :: rest =>
            if fe == vs16 then [c, fe] :: scanEmojis rest
            else [c] :: scanEmojis (fe :: rest)
        | [] => [c] :: scanEmojis []
      else scanEmojis cs

/-- The acceptance filter the source applies to each match (skip single
ASCII, the deny-listed code points, ASCII, digits, and non-emoji
arrows). -/
def emojiAccepted (m : List Char) : Bool :=
  match m with
  | [] => false
  | c :: _ =>
      let cp := c.toNat
      if m.length == 1 && cp < 128 then false
      else if excludedEmojiCodePoints.contains cp then false
      else if cp < 0x80 then false
      else if 0x30 ≤ cp && cp ≤ 0x39 then false
      else if (0x2190 ≤ cp && cp ≤ 0x21FF) &&
          !([0x2194, 0x2195, 0x2196, 0x2197, 0x2198, 0x2199].contains cp) then false
      else true

structure EmojiStats where
  topEmojis : List (String × Nat)
  totalEmojis : Nat
deriving DecidableEq, Repr

def analyzeEmojis (posts : List FeedItem) : EmojiStats :=
  let st := posts.foldl
    (fun (st : List (String × Nat) × Nat) (item : FeedItem) =>
      (scanEmojis item.post.record.text.data).foldl
        (fun st2 m =>
          if emojiAccepted m then (bumpCount (String.mk m) st2.1, st2.2 + 1)
          else st2)
        st)
    ([], 0)
  { topEmojis := (sortByDesc Prod.snd st.1).take 10
    totalEmojis := st.2 }

/-! ### Media classification (`analyzeMedia`) -/

structure MediaStats where
  mediaPosts : Nat
  mediaRatio : ℚ
  type : String
  description : String
deriving DecidableEq, Repr

def analyzeMedia (posts : List FeedItem) (totalPosts : Nat) : MediaStats :=
  let imagePosts := (posts.filter (fun i => i.post.record.embed = EmbedType.images)).length
  let videoPosts := (posts.filter (fun i => i.post.record.embed = EmbedType.video)).length
  let mediaPosts := imagePosts + videoPosts
  let mediaRatio : ℚ := if totalPosts = 0 then 0 else (mediaPosts : ℚ) / totalPosts
  -- `mediaRatio > 0.5` ⟺ `totalPosts < 2 * mediaPosts`, etc.
  let td : String × String :=
    if avgGtFrac mediaPosts totalPosts 1 2 then
      if videoPosts * 2 < imagePosts then
        ("Visual Storyteller",
         "You speak in images. Every post is a picture worth a thousand words. Instagram who?")
      else if imagePosts < videoPosts then
        ("Video Creator",
         "You're all about that moving picture life. TikTok energy, Bluesky platform.")
      else
        ("Multimedia Master",
         "Images, videos, text - you do it all. A true content creator.")
    else if avgGtFrac mediaPosts totalPosts 1 5 then
      ("Balanced", "You mix it up. Sometimes words, sometimes visuals. Versatile.")
    else
      ("Text-only",
       "Words are your medium. No images, no videos, just pure text. Old school.")
  { mediaPosts := mediaPosts, mediaRatio := mediaRatio, type := td.1, description := td.2 }

/-! ### Thread analysis (`analyzeThreads`) -/

structure ThreadPost where
  text : String
  replies : Nat
  likes : Nat
  reposts : Nat
  uri : String
deriving DecidableEq, Repr

def toThreadPost (i : FeedItem) : ThreadPost :=
  ⟨i.post.record.text, i.post.replyCount, i.post.likeCount, i.post.repostCount, i.post.uri⟩

structure ThreadStats where
  longestThread : Option ThreadPost
  conversationStarters : List ThreadPost
  totalThreadsStarted : Nat
  avgRepliesPerThread : Nat
  type : String
  description : String
deriving DecidableEq, Repr

def analyzeThreads (posts : List FeedItem) : ThreadStats :=
  let threadStarters := posts.filter
    (fun i => !i.post.record.isReply && decide (0 < i.post.replyCount))
  let totalThreadsStarted := threadStarters.length
  let longest := threadStarters.foldl
    (fun (best : Option FeedItem × Nat) i =>
      if best.2 < i.post.replyCount then (some i, i.post.replyCount) else best)
    (none, 0)
  let conversationStarters :=
    (sortByDesc (fun p : ThreadPost => p.replies) (threadStarters.map toThreadPost)).take 5
  let totalReplies := threadStarters.foldl (fun s i => s + i.post.replyCount) 0
  let avgRepliesPerThread :=
    if 0 < totalThreadsStarted then jsRoundNat totalReplies totalThreadsStarted else 0
  if totalThreadsStarted = 0 then
    { longestThread := none, conversationStarters := [], totalThreadsStarted := 0,
      avgRepliesPerThread := 0, type := "Quiet Observer",
      description := "You mostly observe. Not much of a conversation starter, but that's okay." }
  else
    -- `threadRatio > 0.4 && avgReplies > 10`, etc., with the ratio
    -- thresholds decided by exact cross-multiplication
    let td : String × String :=
      if avgGtFrac totalThreadsStarted posts.length 2 5 && decide (10 < avgRepliesPerThread) then
        ("Conversation Master",
         "You're a conversation architect. Every post is a thread waiting to happen. People can't help but respond.")
      else if avgGtFrac totalThreadsStarted posts.length 3 10 && decide (5 < avgRepliesPerThread) then
        ("Thread Starter", "You know how to get people talking. Your posts spark discussions.")
      else if avgGtFrac totalThreadsStarted posts.length 1 5 then
        ("Occasional Conversationalist",
         "You start conversations when it matters. Quality over quantity.")
      else if decide (15 < avgRepliesPerThread) then
        ("Selective Starter",
         "You don't post often, but when you do, people respond. That's the power of good content.")
      else
        ("Quiet Starter",
         "You start threads, but they're more intimate. Small conversations, big connections.")
    { longestThread := longest.1.map toThreadPost,
      conversationStarters := conversationStarters,
      totalThreadsStarted := totalThreadsStarted,
      avgRepliesPerThread := avgRepliesPerThread,
      type := td.1, description := td.2 }

/-! ### Link/domain analysis (`analyzeLinks`)

The URL regex is modelled by a greedy left-to-right scanner over its
character classes (host `[-\w.]+`, optional `:` port, path, query,
fragment); `new URL(url).hostname` is the lowercased host without the
port, and every URL the scanner produces parses, so the source's
invalid-URL catch never fires in the model. -/

def isHostChar (c : Char) : Bool := isWordChar c || c == '-' || c == '.'

def isPathChar (c : Char) : Bool := isWordChar c || c == '/' || c == '.'

def isQueryChar (c : Char) : Bool :=
  isWordChar c || c == '&' || c == '=' || c == '%' || c == '.'

def isFragChar (c : Char) : Bool := isWordChar c || c == '.'

/-- Case-insensitive prefix test (the source regex carries the `i` flag). -/
def startsWithCI (p : String) (l : List Char) : Bool :=
  p.data.isPrefixOf (l.map Char.toLower)

/-- Match one URL at the head of `l`: the scheme, a nonempty host run,
then the optional port, path, query and fragment groups, each greedy.
Returns the match and the remainder. -/
def matchUrlAt (l : List Char) : Option (List Char × List Char) :=
  let tryAt : Nat → Option (List Char × List Char) := fun schemeLen =>
    let r0 := l.drop schemeLen
    let host := r0.takeWhile isHostChar
    if host.isEmpty then none
    else
      let r1 := r0.dropWhile isHostChar
      let pr2 : List Char × List Char :=
        match r1 with
        | ':' :: t =>
            let ds := t.takeWhile Char.isDigit
            if ds.isEmpty then ([], r1) else (':' :: ds, t.dropWhile Char.isDigit)
        | _ => ([], r1)
      let pr3 : List Char × List Char :=
        match pr2.2 with
        | '/' :: t => ('/' :: t.takeWhile isPathChar, t.dropWhile isPathChar)
        | _ => ([], pr2.2)
      let pr4 : List Char × List Char :=
        match pr3.2 with
        | '?' :: t => ('?' :: t.takeWhile isQueryChar, t.dropWhile isQueryChar)
        | _ => ([], pr3.2)
      let pr5 : List Char × List Char :=
        match pr4.2 with
        | '#' :: t => ('#' :: t.takeWhile isFragChar, t.dropWhile isFragChar)
        | _ => ([], pr4.2)
      some (l.take schemeLen ++ host ++ pr2.1 ++ pr3.1 ++ pr4.1 ++ pr5.1, pr5.2)
  if startsWithCI "https://" l then tryAt 8
  else if startsWithCI "http://" l then tryAt 7
  else none

/-- All URL matches in order.  The fuel starts at the text length and
every step consumes at least one character, so it never runs out. -/
def extractUrlsGo : Nat → List Char → List String
  | 0, _ => []
  | _ + 1, [] => []
  | fuel + 1, c :: cs =>
      match matchUrlAt (c :: cs) with
      | some (url, rest) => String.mk url :: extractUrlsGo fuel rest
      | none => extractUrlsGo fuel cs

def extractUrls (text : String) : List String :=
  extractUrlsGo text.data.length text.data

/-- `new URL(url).hostname`: the lowercased authority up to the first
`:`, `/`, `?` or `#`. -/
def hostnameOf (url : String) : String :=
  let l := url.data.map Char.toLower
  let afterScheme :=
    if "https://".data.isPrefixOf l then l.drop 8
    else if "http://".data.isPrefixOf l then l.drop 7
    else l
  String.mk (afterScheme.takeWhile
    (fun c => !(c == ':' || c == '/' || c == '?' || c == '#')))

/-- `hostname.replace(/^www\./, '')`. -/
def stripWww (d : String) : String :=
  if "www.".data.isPrefixOf d.data then String.mk (d.data.drop 4) else d

structure LinkStats where
  topDomains : List (String × Nat)
  totalLinks : Nat
  type : String
  description : String
deriving DecidableEq, Repr

def analyzeLinks (posts : List FeedItem) : LinkStats :=
  let st := posts.foldl
    (fun (st : List (String × Nat) × Nat) (item : FeedItem) =>
      (extractUrls item.post.record.text).foldl
        (fun st2 url =>
          let domain := stripWww (hostnameOf url)
          if containsSub domain "bsky.app" || containsSub domain "bluesky" then st2
          else (bumpCount domain st2.1, st2.2 + 1))
        st)
    ([], 0)
  let totalLinks := st.2
  let topDomains := (sortByDesc Prod.snd st.1).take 10
  if totalLinks = 0 || topDomains.isEmpty then
    { topDomains := [], totalLinks := 0, type := "Text-only",
      description := "You keep it simple. No links, no distractions. Pure thoughts." }
  else
    -- `linkRatio > 0.3 / 0.15 / 0.05` by exact cross-multiplication
    let td : String × String :=
      if avgGtFrac totalLinks posts.length 3 10 then
        ("Link Curator",
         "You're a digital librarian. Constantly sharing the best of the web. Everyone's favorite link source.")
      else if avgGtFrac totalLinks posts.length 3 20 then
        ("Selective Sharer", "You share links, but only the good stuff. Quality over quantity.")
      else if avgGtFrac totalLinks posts.length 1 20 then
        ("Occasional Linker", "You share links when they matter. Not spam, just substance.")
      else
        ("Link Sharer", "You share links, even if sparingly. Quality over quantity.")
    { topDomains := topDomains, totalLinks := totalLinks,
      type := td.1, description := td.2 }

/-! ### Milestones (`findMilestones`) -/

structure Milestone where
  postNumber : Nat
  text : String
  likes : Nat
  reposts : Nat
  replies : Nat
  uri : String
  createdAt : UTCTime
deriving DecidableEq, Repr

def toMilestone (postNumber : Nat) (i : FeedItem) : Milestone :=
  ⟨postNumber, i.post.record.text, i.post.likeCount, i.post.repostCount,
   i.post.replyCount, i.post.uri, i.post.record.createdAt⟩

/-- The thresholds and the chronological pick; the source wraps the
list in a `{ milestones }` object, modelled as the bare list. -/
def findMilestones (posts : List FeedItem) (totalPosts : Nat) : List Milestone :=
  let sorted := sortByAsc (fun i : FeedItem => utcEpochMillis i.post.record.createdAt) posts
  let thresholds : List Nat := [100, 500, 1000, 2500, 5000, 10000]
  let ms := thresholds.foldl
    (fun acc threshold =>
      if threshold ≤ totalPosts then
        match sorted.get? (threshold - 1) with
        | some p => acc ++ [toMilestone threshold p]
        | none => acc
      else acc)
    []
  let ms2 :=
    match sorted with
    | [] => ms
    | first :: _ => ms ++ [toMilestone 1 first]
  sortByAsc (fun m : Milestone => (m.postNumber : Int)) ms2

/-! ### Engagement timeline (`analyzeEngagementTimeline`) -/

def engagementOf (i : FeedItem) : Nat :=
  i.post.likeCount + i.post.repostCount + i.post.replyCount

/-- Add `eng` to the `{ total, count }` aggregate of `key`, appending a
fresh entry on first encounter. -/
def bumpAgg {α : Type} [DecidableEq α] (key : α) (eng : Nat) :
    List (α × Nat × Nat) → List (α × Nat × Nat)
  | [] => [(key, eng, 1)]
  | (k, t, c) :: rest =>
      if k = key then (k, t + eng, c + 1) :: rest
      else (k, t, c) :: bumpAgg key eng rest

/-- Arg-max of the exact per-entry average `total / count` over the
entries in order, strict improvement only (ties keep the earlier
entry), starting from average 0; decided by cross-multiplication.
Returns the best key with its `(total, count)`. -/
def bestAgg {α : Type} (dflt : α) (entries : List (α × Nat × Nat)) : α × Nat × Nat :=
  entries.foldl
    (fun b e => if b.2.1 * e.2.2 < e.2.1 * b.2.2 then e else b)
    (dflt, 0, 1)

structure Timeline where
  bestMonth : String
  bestDay : String
  bestHour : Nat
  bestMonthAvg : Nat
  bestDayAvg : Nat
  bestHourAvg : Nat
deriving DecidableEq, Repr

/-- `analyzeEngagementTimeline(posts, timezoneOffsetMinutes = 0)`.
Month/day tallies enumerate in insertion order; the hour tally has
numeric keys, which a JS object enumerates in ascending order. -/
def analyzeEngagementTimeline (posts : List FeedItem)
    (timezoneOffsetMinutes : Int := 0) : Timeline :=
  let locs := posts.map
    (fun i => (getLocalTimeComponents i.post.record.createdAt timezoneOffsetMinutes,
               engagementOf i))
  let monthEng := locs.foldl (fun m le => bumpAgg le.1.month le.2 m) []
  let dayEng := locs.foldl (fun m le => bumpAgg le.1.day le.2 m) []
  let hourEng : List (Nat × Nat × Nat) := (List.range 24).filterMap
    (fun (h : Nat) =>
      let sel := locs.filter (fun le => le.1.hour = (h : Int))
      if sel.isEmpty then none
      else some (h, sel.foldl (fun t le => t + le.2) (0 : Nat), sel.length))
  let bm := bestAgg "Unknown" monthEng
  let bd := bestAgg "Unknown" dayEng
  let bh := bestAgg 12 hourEng
  { bestMonth := bm.1, bestDay := bd.1, bestHour := bh.1,
    bestMonthAvg := jsRoundNat bm.2.1 bm.2.2,
    bestDayAvg := jsRoundNat bd.2.1 bd.2.2,
    bestHourAvg := jsRoundNat bh.2.1 bh.2.2 }

/-! ### Visualizations (`analyzeVisualizations`) -/

structure Viz where
  monthlyPosts : List (String × Nat)
  monthlyEngagement : List (String × Nat)
  dailyActivity : List (String × Nat)
deriving DecidableEq, Repr

/-- Monthly/daily buckets in calendar order (the source pre-seeds every
month and day with 0 and keeps months with a positive count).
`targetYear` is accepted and unused, as in the source. -/
def analyzeVisualizations (posts : List FeedItem) (targetYear : Int)
    (timezoneOffsetMinutes : Int := 0) : Viz :=
  let locs := posts.map
    (fun i => (getLocalTimeComponents i.post.record.createdAt timezoneOffsetMinutes,
               engagementOf i))
  let monthlyPosts := monthNames.filterMap
    (fun m =>
      let c := (locs.filter (fun le => le.1.month = m)).length
      if c = 0 then none else some (m, c))
  let monthlyEngagement := monthNames.filterMap
    (fun m =>
      let e := (locs.filter (fun le => le.1.month = m)).foldl
        (fun t le => t + le.2) (0 : Nat)
      if e = 0 then none else some (m, e))
  let dailyActivity := dayNames.map
    (fun d => (String.mk (d.data.take 3), (locs.filter (fun le => le.1.day = d)).length))
  { monthlyPosts := monthlyPosts, monthlyEngagement := monthlyEngagement,
    dailyActivity := dailyActivity }

/-! ### Poster-type classifier (`analyzePosterType`) -/

structure TypeDesc where
  type : String
  description : String
deriving DecidableEq, Repr

/-- The ordered priority cascade over post counts, engagement, streak
and time-of-day ratios.  `hourCounts` is the hour tally of the patterns
pass.  Ratio thresholds (`> 0.4`, `> 0.3`, `> 0.7`, `< 0.2`) are
decided by exact cross-multiplication; `originalPostRatio =
1 - replyRatio - repostRatio` is compared over `ℤ` after clearing the
common denominator `totalPosts`. -/
def analyzePosterType (posts : List FeedItem)
    (totalPosts totalReplies totalReposts : Nat) (avgEngagement : Nat)
    (longestStreak : Nat) (hourCounts : List (Nat × Nat)) : TypeDesc :=
  if totalPosts = 0 then
    ⟨"Balanced", "Your posting style is balanced across all metrics."⟩
  else
    let replyPosts := (posts.filter (fun i => i.post.record.isReply)).length
    let repostPosts :=
      (posts.filter (fun i => i.post.record.embed = EmbedType.record)).length
    let nightOwlPosts := hourCounts.foldl
      (fun s e => if 22 ≤ e.1 || e.1 < 2 then s + e.2 else s) 0
    let earlyBirdPosts := hourCounts.foldl
      (fun s e => if 5 ≤ e.1 && e.1 < 9 then s + e.2 else s) 0
    let totalTimePosts := hourCounts.foldl (fun s e => s + e.2) 0
    if 200 < longestStreak then
      ⟨"Streak Master",
       s!"{longestStreak} days in a row? That's not dedication, that's a cry for help. (We're impressed though.)"⟩
    else if totalPosts < 100 && 30 < avgEngagement then
      ⟨"Quality Over Quantity",
       "You post like you're rationing words during a shortage. And somehow, it works. Respect."⟩
    else if avgGtFrac nightOwlPosts totalTimePosts 2 5 then
      ⟨"Night Owl",
       "You post when normal people sleep. Your 2 AM thoughts are either genius or unhinged. No in-between."⟩
    else if avgGtFrac earlyBirdPosts totalTimePosts 2 5 then
      ⟨"Early Bird",
       "Posting at 6 AM? Who hurt you? (Or are you just that person who's annoyingly productive before coffee?)"⟩
    else if avgGtFrac replyPosts totalPosts 2 5 then
      ⟨"Conversationalist",
       "You can't help yourself - you reply to everything. People's threads would die without you, and you know it."⟩
    else if avgGtFrac repostPosts totalPosts 3 10 then
      ⟨"Curator",
       "You're basically a human algorithm. You find the good stuff and repost it. Original thoughts? Overrated."⟩
    else if 50 < avgEngagement && 50 < totalPosts then
      ⟨"Thought Leader",
       "People actually read your posts. Wild concept. You've cracked the code of making people care."⟩
    else if 7 * (totalPosts : ℤ) < 10 * ((totalPosts : ℤ) - replyPosts - repostPosts) &&
        avgLtFrac replyPosts totalPosts 1 5 then
      ⟨"Creator",
       "You post original thoughts and ignore replies. Main character energy, and honestly? We're here for it."⟩
    else if 1000 < totalPosts then
      ⟨"Power User",
       s!"{totalPosts} posts? Touch grass. (But also, wow. That's a lot of thoughts.)"⟩
    else
      ⟨"Balanced",
       "You're... fine. Not too much, not too little. Perfectly average. Congratulations?"⟩

/-! ### Posting-era classifier (`analyzePostingAge`) -/

structure EraDesc where
  era : String
  year : String
  description : String
deriving DecidableEq, Repr

/-- Count of `/#\w+/g` matches: occurrences of `#` directly followed by
a word character (a match's `\w+` run cannot contain another `#`, so
the matches are exactly these positions). -/
def countHashtags : List Char → Nat
  | '#' :: d :: rest =>
      if isWordChar d then 1 + countHashtags (d :: rest)
      else countHashtags (d :: rest)
  | _ :: rest => countHashtags rest
  | [] => 0

/-- The basic emoji detection of `analyzePostingAge`:
`[\u{1F300}-\u{1F9FF}]|[\u{2600}-\u{26FF}]|[\u{2700}-\u{27BF}]`. -/
def isBasicEmojiChar (c : Char) : Bool :=
  let n := c.toNat
  (0x1F300 ≤ n && n ≤ 0x1F9FF) || (0x2600 ≤ n && n ≤ 0x26FF) ||
  (0x2700 ≤ n && n ≤ 0x27BF)

/-- The weighted vintage score over average post length, hashtag
density, emoji density (inverted) and reply ratio (inverted), mapped to
an era by score bands.  The guarded averages are compared to the
thresholds by exact cross-multiplication (`avgGtFrac` / `avgLtFrac`,
with `postsWithText = 0` giving average 0 as in the source). -/
def analyzePostingAge (posts : List FeedItem) (totalPosts totalReplies : Nat) :
    EraDesc :=
  if totalPosts = 0 then
    ⟨"2024s Bluesky", "2024", "Your posting style matches modern Bluesky."⟩
  else
    let replyPosts := (posts.filter (fun i => i.post.record.isReply)).length
    let stats := posts.foldl
      (fun (st : Nat × Nat × Nat × Nat) i =>
        let text := i.post.record.text
        if 0 < text.length then
          (st.1 + text.length, st.2.1 + 1,
           st.2.2.1 + countHashtags text.data,
           st.2.2.2 + text.data.countP isBasicEmojiChar)
        else st)
      (0, 0, 0, 0)
    let totalLength := stats.1
    let postsWithText := stats.2.1
    let hashtagCount := stats.2.2.1
    let emojiCount := stats.2.2.2
    let s1 : Nat :=
      if avgGtFrac totalLength postsWithText 200 1 then 40
      else if avgGtFrac totalLength postsWithText 150 1 then 30
      else if avgGtFrac totalLength postsWithText 100 1 then 20
      else if avgGtFrac totalLength postsWithText 50 1 then 10
      else 0
    let s2 : Nat :=
      if avgGtFrac hashtagCount postsWithText 3 1 then 30
      else if avgGtFrac hashtagCount postsWithText 2 1 then 20
      else if avgGtFrac hashtagCount postsWithText 1 1 then 10
      else if avgGtFrac hashtagCount postsWithText 1 2 then 5
      else 0
    let s3 : Nat :=
      if avgLtFrac emojiCount postsWithText 1 10 then 20
      else if avgLtFrac emojiCount postsWithText 1 2 then 15
      else if avgLtFrac emojiCount postsWithText 1 1 then 10
      else if avgLtFrac emojiCount postsWithText 2 1 then 5
      else 0
    let s4 : Nat :=
      if avgLtFrac replyPosts totalPosts 1 10 then 10
      else if avgLtFrac replyPosts totalPosts 1 5 then 7
      else if avgLtFrac replyPosts totalPosts 3 10 then 4
      else 0
    let vintageScore := s1 + s2 + s3 + s4
    if 70 ≤ vintageScore then
      ⟨"2010s Twitter", "2010",
       "You still write like hashtags are a personality trait and emojis haven't been invented yet. Peak 2010 energy."⟩
    else if 50 ≤ vintageScore then
      ⟨"2015s Twitter", "2015",
       "You're stuck in the golden age of Twitter—when hashtags were cool and we still had character limits. Classic."⟩
    else if 30 ≤ vintageScore then
      ⟨"2020s Twitter", "2020",
       "You've evolved past hashtag spam but haven't fully embraced the emoji revolution. A transitional era."⟩
    else
      ⟨"2024s Bluesky", "2024",
       "You post like you were born on Bluesky yesterday. Short, emoji-heavy, and terminally online. Welcome to the future."⟩

/-! ### Fan sampling (`getTopFans`)

The like/repost edges of a post are supplied as functions of the post
URI (the pure content of `getPostLikes` / `getPostReposts`).  The fan
tally is keyed by actor DID; the output objects of the source spread
the tally entry, and the model additionally carries the `did` key for
specification purposes. -/

structure FanTally where
  did : String
  handle : String
  displayName : String
  avatar : String
  likes : Nat
  reposts : Nat
deriving DecidableEq, Repr

structure Fan where
  did : String
  handle : String
  displayName : String
  avatar : String
  likes : Nat
  reposts : Nat
  score : Nat
deriving DecidableEq, Repr

/-- A fresh tally entry: `displayName: actor.displayName || actor.handle`,
`avatar: actor.avatar || ""`, zero counts. -/
def newTally (a : Actor) : FanTally :=
  ⟨a.did, a.handle, if a.displayName = "" then a.handle else a.displayName,
   a.avatar, 0, 0⟩

/-- `if (!fanCounts[did]) fanCounts[did] = fresh`: JS objects append new
string keys at the end. -/
def ensureTally (a : Actor) (m : List FanTally) : List FanTally :=
  if m.any (fun f => f.did == a.did) then m else m ++ [newTally a]

def addLikeEdge (profileDid : String) (m : List FanTally) (a : Actor) :
    List FanTally :=
  if a.did == profileDid then m
  else (ensureTally a m).map
    (fun f => if f.did == a.did then { f with likes := f.likes + 1 } else f)

def addRepostEdge (profileDid : String) (m : List FanTally) (a : Actor) :
    List FanTally :=
  if a.did == profileDid then m
  else (ensureTally a m).map
    (fun f => if f.did == a.did then { f with reposts := f.reposts + 1 } else f)

def toFan (f : FanTally) : Fan :=
  ⟨f.did, f.handle, f.displayName, f.avatar, f.likes, f.reposts,
   f.likes + f.reposts * 2⟩

/-- The top 50 posts by `likeCount + repostCount`, descending (stable). -/
def sampledPostsOf (posts : List FeedItem) : List FeedItem :=
  (sortByDesc (fun i : FeedItem => i.post.likeCount + i.post.repostCount) posts).take 50

/-- `fanCounts` after walking the sampled posts: per post, first the like
edges, then the repost edges. -/
def fanCountsOf (likesOf repostsOf : String → List Actor)
    (posts : List FeedItem) (profileDid : String) : List FanTally :=
  (sampledPostsOf posts).foldl
    (fun m i =>
      let m1 := (likesOf i.post.uri).foldl (addLikeEdge profileDid) m
      (repostsOf i.post.uri).foldl (addRepostEdge profileDid) m1)
    []

/-- `getTopFans(session, posts, profileDid)`: tally the like/repost
edges of the top 50 posts by `likeCount + repostCount`, excluding the
subject, score `likes + 2 * reposts`, and return the top 5 by score
(stable descending). -/
def getTopFans (likesOf repostsOf : String → List Actor)
    (posts : List FeedItem) (profileDid : String) : List Fan :=
  (sortByDesc (fun f : Fan => f.score)
    ((fanCountsOf likesOf repostsOf posts profileDid).map toFan)).take 5

/-! ### Patterns and totals (`analyzeRecap`, first half) -/

def localOf (timezoneOffsetMinutes : Int) (i : FeedItem) : LocalTime :=
  getLocalTimeComponents i.post.record.createdAt timezoneOffsetMinutes

/-- `monthCounts`, keyed by month name in insertion order. -/
def monthCountsOf (timezoneOffsetMinutes : Int) (posts : List FeedItem) :
    List (String × Nat) :=
  posts.foldl (fun m i => bumpCount (localOf timezoneOffsetMinutes i).month m) []

/-- `dayCounts`, keyed by weekday name in insertion order. -/
def dayCountsOf (timezoneOffsetMinutes : Int) (posts : List FeedItem) :
    List (String × Nat) :=
  posts.foldl (fun m i => bumpCount (localOf timezoneOffsetMinutes i).day m) []

/-- `hourCounts`: numeric keys, which a JS object enumerates in
ascending order, restricted to hours with a positive count. -/
def hourCountsOf (timezoneOffsetMinutes : Int) (posts : List FeedItem) :
    List (Nat × Nat) :=
  (List.range 24).filterMap
    (fun (h : Nat) =>
      let c := (posts.filter
        (fun i => (localOf timezoneOffsetMinutes i).hour = (h : Int))).length
      if c = 0 then none else some (h, c))

/-- `Object.entries(tally).sort((a, b) => b[1] - a[1])[0]?.[0] || dflt`. -/
def topCountKey (entries : List (String × Nat)) (dflt : String) : String :=
  match sortByDesc Prod.snd entries with
  | [] => dflt
  | e :: _ => e.1

/-- The peak hour: as `topCountKey` but over the numeric hour keys, with
`parseInt(... || "12")`. -/
def topHourKey (entries : List (Nat × Nat)) : Nat :=
  match sortByDesc Prod.snd entries with
  | [] => 12
  | e :: _ => e.1

/-- The distinct local posting dates, ascending (`postDates` plus
`Array.from(...).sort()`). -/
def postDatesOf (timezoneOffsetMinutes : Int) (posts : List FeedItem) : List Int :=
  sortedDistinctDates (posts.map (fun i => (localOf timezoneOffsetMinutes i).dayNumber))

/-- The `let top = posts[0]; let max = 0; forEach (strict >)` scan used
for the top post and the per-metric top posts: first element on an
all-zero list, first strict maximum otherwise. -/
def maxByStrict (score : FeedItem → Nat) (posts : List FeedItem) : Option FeedItem :=
  match posts with
  | [] => none
  | first :: _ =>
      some (posts.foldl
        (fun (b : FeedItem × Nat) i => if b.2 < score i then (i, score i) else b)
        (first, 0)).1

/-- `reduce((earliest, post) => post < earliest ? post : earliest)`. -/
def firstPostOf (posts : List FeedItem) : Option FeedItem :=
  match posts with
  | [] => none
  | first :: rest =>
      some (rest.foldl
        (fun earliest p =>
          if utcEpochMillis p.post.record.createdAt <
              utcEpochMillis earliest.post.record.createdAt then p
          else earliest)
        first)

structure PostSummary where
  text : String
  likes : Nat
  reposts : Nat
  replies : Nat
  uri : String
deriving DecidableEq, Repr

def summarize (i : FeedItem) : PostSummary :=
  ⟨i.post.record.text, i.post.likeCount, i.post.repostCount,
   i.post.replyCount, i.post.uri⟩

structure FirstPostSummary where
  text : String
  likes : Nat
  reposts : Nat
  replies : Nat
  uri : String
  createdAt : UTCTime
deriving DecidableEq, Repr

def summarizeFirst (i : FeedItem) : FirstPostSummary :=
  ⟨i.post.record.text, i.post.likeCount, i.post.repostCount,
   i.post.replyCount, i.post.uri, i.post.record.createdAt⟩

/-! ### The assembled Recap -/

structure ProfileFacet where
  handle : String
  displayName : String
  avatar : String
  followersCount : Nat
  followsCount : Nat
deriving DecidableEq, Repr

structure Stats where
  totalPosts : Nat
  totalLikes : Nat
  totalReposts : Nat
  totalReplies : Nat
  totalEngagement : Nat
  avgEngagement : Nat
  daysActive : Nat
deriving DecidableEq, Repr

structure Patterns where
  mostActiveMonth : String
  mostActiveDay : String
  peakHour : Nat
  longestStreak : Nat
deriving DecidableEq, Repr

/-- The `_debug` block of the returned recap. -/
structure DebugInfo where
  totalPostsFetched : Nat
  totalPostsAfterFilter : Nat
  iterations : Option Nat
  maxIterations : Option Nat
deriving DecidableEq, Repr

/-- Every facet of the recap except the `_debug` block. -/
structure RecapCore where
  profile : ProfileFacet
  stats : Stats
  topPost : Option PostSummary
  patterns : Patterns
  topFans : List Fan
  topics : Topics
  posterType : TypeDesc
  postingAge : EraDesc
  firstPost : Option FirstPostSummary
  mostLikedPost : Option PostSummary
  mostRepostedPost : Option PostSummary
  mostRepliedPost : Option PostSummary
  emojis : EmojiStats
  media : MediaStats
  engagementTimeline : Timeline
  milestones : List Milestone
  links : LinkStats
  visualizations : Viz
  threads : ThreadStats
  year : Int
  truncated : Bool
deriving DecidableEq, Repr

/-- The whole returned object of `analyzeRecap`. -/
structure Recap where
  core : RecapCore
  debug : DebugInfo
deriving DecidableEq, Repr

/-- The body of `analyzeRecap` past the author-DID filter: every facet
computed from the already-filtered `ownPosts`. -/
def analyzeRecapCore (ownPosts : List FeedItem) (profile : Profile)
    (targetYear : Int) (likesOf repostsOf : String → List Actor)
    (fetchedIterations maxIterations : Option Nat)
    (timezoneOffsetMinutes : Int) : RecapCore :=
  let totalPosts := ownPosts.length
  let totalLikes := ownPosts.foldl (fun s i => s + i.post.likeCount) 0
  let totalReposts := ownPosts.foldl (fun s i => s + i.post.repostCount) 0
  let totalReplies := ownPosts.foldl (fun s i => s + i.post.replyCount) 0
  let topPostByEngagement := maxByStrict
    (fun i => i.post.likeCount + i.post.repostCount * 2 + i.post.replyCount) ownPosts
  let monthCounts := monthCountsOf timezoneOffsetMinutes ownPosts
  let dayCounts := dayCountsOf timezoneOffsetMinutes ownPosts
  let hourCounts := hourCountsOf timezoneOffsetMinutes ownPosts
  let postDates := postDatesOf timezoneOffsetMinutes ownPosts
  let mostActiveMonth := topCountKey monthCounts "Unknown"
  let mostActiveDay := topCountKey dayCounts "Unknown"
  let peakHour := topHourKey hourCounts
  let longestStreak := longestStreakOfDates postDates
  let avgEngagement :=
    if 0 < totalPosts then jsRoundNat (totalLikes + totalReposts + totalReplies) totalPosts
    else 0
  let topFans := getTopFans likesOf repostsOf ownPosts profile.did
  let topics := analyzeTopics ownPosts
  let posterType := analyzePosterType ownPosts totalPosts totalReplies totalReposts
    avgEngagement longestStreak hourCounts
  let postingAge := analyzePostingAge ownPosts totalPosts totalReplies
  let firstPost := firstPostOf ownPosts
  let mostLikedPost := maxByStrict (fun i => i.post.likeCount) ownPosts
  let mostRepostedPost := maxByStrict (fun i => i.post.repostCount) ownPosts
  let mostRepliedPost := maxByStrict (fun i => i.post.replyCount) ownPosts
  let emojis := analyzeEmojis ownPosts
  let media := analyzeMedia ownPosts totalPosts
  -- the source calls `analyzeEngagementTimeline(ownPosts)`, so the
  -- timeline always buckets with the DEFAULT offset 0, not the
  -- caller's `timezoneOffsetMinutes`
  let engagementTimeline := analyzeEngagementTimeline ownPosts
  let milestones := findMilestones ownPosts totalPosts
  let links := analyzeLinks ownPosts
  let visualizations := analyzeVisualizations ownPosts targetYear timezoneOffsetMinutes
  let threads := analyzeThreads ownPosts
  let isTruncated :=
    match fetchedIterations, maxIterations with
    | some fi, some mi => decide (mi ≤ fi)
    | _, _ => false
  { profile :=
      ⟨profile.handle,
       if profile.displayName = "" then profile.handle else profile.displayName,
       profile.avatar, profile.followersCount, profile.followsCount⟩
    stats :=
      ⟨totalPosts, totalLikes, totalReposts, totalReplies,
       totalLikes + totalReposts + totalReplies, avgEngagement, postDates.length⟩
    topPost := topPostByEngagement.map summarize
    patterns := ⟨mostActiveMonth, mostActiveDay, peakHour, longestStreak⟩
    topFans := topFans
    topics := topics
    posterType := posterType
    postingAge := postingAge
    firstPost := firstPost.map summarizeFirst
    mostLikedPost := mostLikedPost.map summarize
    mostRepostedPost := mostRepostedPost.map summarize
    mostRepliedPost := mostRepliedPost.map summarize
    emojis := emojis
    media := media
    engagementTimeline := engagementTimeline
    milestones := milestones
    links := links
    visualizations := visualizations
    threads := threads
    year := targetYear
    truncated := isTruncated }

/-- `analyzeRecap(session, posts, profile, targetYear, fetchedIterations,
maxIterations, timezoneOffsetMinutes = 0)`: filter the fetched items to
the profile's own DID, compute every facet from the filtered list, and
attach the `_debug` block (which records the RAW fetched count). -/
def analyzeRecap (posts : List FeedItem) (profile : Profile) (targetYear : Int)
    (likesOf repostsOf : String → List Actor)
    (fetchedIterations maxIterations : Option Nat)
    (timezoneOffsetMinutes : Int := 0) : Recap :=
  let ownPosts := posts.filter (fun i => i.post.authorDid == profile.did)
  { core := analyzeRecapCore ownPosts profile targetYear likesOf repostsOf
      fetchedIterations maxIterations timezoneOffsetMinutes
    debug := ⟨posts.length, ownPosts.length, fetchedIterations, maxIterations⟩ }

/-- The analytics part of `generateRecap(handle, timezoneOffsetMinutes
= 0)`: the fetched posts and the profile are handed to `analyzeRecap`
WITHOUT the timezone argument — the source line is
`analyzeRecap(session, posts, profile, currentYear, iterations,
maxIterations)` — so `analyzeRecap` falls back to its default `0` and
the caller's `timezoneOffsetMinutes` is never used. -/
def generateRecapAnalysis (posts : List FeedItem) (profile : Profile)
    (currentYear : Int) (likesOf repostsOf : String → List Actor)
    (iterations maxIterations : Option Nat)
    (timezoneOffsetMinutes : Int := 0) : Recap :=
  analyzeRecap posts profile currentYear likesOf repostsOf iterations maxIterations

/-! ### The `/recap` route: handle normalization and the cache gate
(`routes/bluesky.ts`) -/

/-- `CACHE_VERSION = 2` (incremented for threads, visualizations and
timezone support). -/
def CACHE_VERSION : Nat := 2

/-- A stored cache row as the route reads it: its expiry instant (epoch
milliseconds) and the `_cacheVersion` embedded in its `data` (absent on
rows written before versioning). -/
structure CacheEntry where
  expiresAt : Int
  cacheVersion : Option Nat
deriving DecidableEq, Repr

inductive RecapSource
  | cache
  | generated
deriving DecidableEq, Repr

/-- The cache gate of `POST /recap`:
`cacheValid = cached && cached.expiresAt > new Date() &&
(cached.data)?._cacheVersion === CACHE_VERSION`; a valid entry is
served, anything else regenerates. -/
def recapCacheDecision (cached : Option CacheEntry) (now : Int) : RecapSource :=
  match cached with
  | Option.none => RecapSource.generated
  | Option.some c =>
      if now < c.expiresAt ∧ c.cacheVersion = some CACHE_VERSION then
        RecapSource.cache
      else RecapSource.generated

/-- `s.trim()` (strip leading and trailing whitespace). -/
def jsTrim (s : String) : String :=
  String.mk ((s.data.dropWhile Char.isWhitespace).reverse.dropWhile
    Char.isWhitespace).reverse

/-- `replace(/^@/, "")`: strip one leading `@`. -/
def stripLeadingAt (s : String) : String :=
  match s.data with
  | '@' :: rest => String.mk rest
  | _ => s

/-- `handle.trim().replace(/^@/, "").toLowerCase()` as inlined in the
`POST /recap` handler. -/
def normalizeHandleRecapRoute (handle : String) : String :=
  jsToLower (stripLeadingAt (jsTrim handle))

/-- The identically-inlined normalization of the
`POST /recap/regenerate` handler. -/
def normalizeHandleRegenerateRoute (handle : String) : String :=
  jsToLower (stripLeadingAt (jsTrim handle))

/-! ### Concrete fixtures used by the evaluation theorems -/

def noEdges : String → List Actor := fun _ => []

def subjectProfile : Profile := ⟨"did:plc:me", "me.bsky.social", "", "", 0, 0⟩

/-- One own post at 2025-06-15T23:30:00Z with 5 likes. -/
def lateEveningPost : FeedItem :=
  ⟨⟨"at://did:plc:me/app.bsky.feed.post/1", "did:plc:me",
    ⟨⟨2025, 5, 15, 23, 30, 0⟩, "", false, EmbedType.none⟩, 5, 0, 0⟩⟩

/-- A feed item authored by a different account (e.g. a repost of
someone else's post appearing in the author feed). -/
def otherAuthorItem : FeedItem :=
  ⟨⟨"at://did:plc:other/app.bsky.feed.post/2", "did:plc:other",
    ⟨⟨2025, 5, 10, 12, 0, 0⟩, "", false, EmbedType.none⟩, 0, 0, 0⟩⟩

/-! ### C6: cache-version gate -/

/-- C6.  A stored entry whose embedded `_cacheVersion` differs from
`CACHE_VERSION` is treated as invalid and regenerated even when its
`expiresAt` is strictly in the future; an entry is served from cache
exactly when it is both unexpired and version-matching. -/
theorem cacheVersion_gate :
    (∀ (c : CacheEntry) (now : Int), c.cacheVersion ≠ some CACHE_VERSION →
      now < c.expiresAt →
      recapCacheDecision (some c) now = RecapSource.generated) ∧
    (∀ (c : CacheEntry) (now : Int),
      recapCacheDecision (some c) now = RecapSource.cache ↔
        now < c.expiresAt ∧ c.cacheVersion = some CACHE_VERSION) := by
  constructor
  · intro c now hv _
    simp only [recapCacheDecision]
    rw [if_neg]
    intro ⟨_, h2⟩
    exact hv h2
  · intro c now
    simp only [recapCacheDecision]
    split_ifs with h
    · simpa using h
    · simp only [reduceCtorEq, false_iff]
      exact h

/-- Witness for C6: a future-dated entry carrying version 1 is
regenerated, not served. -/
theorem cacheVersion_gate_witness :
    recapCacheDecision (some ⟨1000, some 1⟩) 0 = RecapSource.generated :=
  cacheVersion_gate.1 ⟨1000, some 1⟩ 0 (by decide) (by decide)

/-! ### C7: handle normalization -/

/-- C7.  The `/recap` and `/recap/regenerate` handlers normalize the
handle with the same function (trim, strip one leading `@`,
lowercase), and the three spec inputs all map to the cache key
`"example.bsky.social"`. -/
theorem normalizeHandle_uniform :
    (∀ h, normalizeHandleRecapRoute h = normalizeHandleRegenerateRoute h) ∧
    normalizeHandleRecapRoute "@Example.Bsky.Social" = "example.bsky.social" ∧
    normalizeHandleRecapRoute " example.bsky.social " = "example.bsky.social" ∧
    normalizeHandleRecapRoute "EXAMPLE.BSKY.SOCIAL" = "example.bsky.social" :=
  ⟨fun _ => rfl, by decide, by decide, by decide⟩

/-! ### C10: the empty set yields streak 1 -/

/-- C10.  For the empty filtered post set the patterns facet reports
`longestStreak = 1` (the running streak counter starts at 1 and is
folded into the maximum even with no posting dates) while `daysActive`
is 0. -/
theorem emptySet_longestStreak_one :
    ∀ (profile : Profile) (targetYear : Int)
      (likesOf repostsOf : String → List Actor)
      (fi mi : Option Nat) (tz : Int),
      (analyzeRecap [] profile targetYear likesOf repostsOf fi mi
          tz).core.patterns.longestStreak = 1 ∧
      (analyzeRecap [] profile targetYear likesOf repostsOf fi mi
          tz).core.stats.daysActive = 0 := by
  intro profile targetYear likesOf repostsOf fi mi tz
  exact ⟨rfl, rfl⟩

/-! ### C8: empty-set defaults of every analyzer -/

/-- C8.  On the empty filtered post set every analyzer yields its
defined empty default: zero stats totals, `null` top/most-liked/
most-reposted/most-replied/first posts, empty fans/topics/emojis/
domains/milestones with zero counts, and the fallback classifier
labels ("Balanced", "2024s Bluesky", "Text-only" media and links,
"Quiet Observer" threads), with the timeline at its "Unknown"/12
defaults — never an error. -/
theorem emptySet_analyzer_defaults :
    ∀ (profile : Profile) (targetYear : Int)
      (likesOf repostsOf : String → List Actor)
      (fi mi : Option Nat) (tz : Int),
      (analyzeRecap [] profile targetYear likesOf repostsOf fi mi tz).core.stats =
        ⟨0, 0, 0, 0, 0, 0, 0⟩ ∧
      (analyzeRecap [] profile targetYear likesOf repostsOf fi mi tz).core.topPost =
        none ∧
      (analyzeRecap [] profile targetYear likesOf repostsOf fi mi tz).core.mostLikedPost =
        none ∧
      (analyzeRecap [] profile targetYear likesOf repostsOf fi mi tz).core.mostRepostedPost =
        none ∧
      (analyzeRecap [] profile targetYear likesOf repostsOf fi mi tz).core.mostRepliedPost =
        none ∧
      (analyzeRecap [] profile targetYear likesOf repostsOf fi mi tz).core.firstPost =
        none ∧
      (analyzeRecap [] profile targetYear likesOf repostsOf fi mi tz).core.topFans =
        [] ∧
      (analyzeRecap [] profile targetYear likesOf repostsOf fi mi tz).core.topics =
        ⟨[], []⟩ ∧
      (analyzeRecap [] profile targetYear likesOf repostsOf fi mi tz).core.emojis =
        ⟨[], 0⟩ ∧
      (analyzeRecap [] profile targetYear likesOf repostsOf fi mi tz).core.milestones =
        [] ∧
      (analyzeRecap [] profile targetYear likesOf repostsOf fi mi tz).core.links =
        ⟨[], 0, "Text-only",
         "You keep it simple. No links, no distractions. Pure thoughts."⟩ ∧
      (analyzeRecap [] profile targetYear likesOf repostsOf fi mi tz).core.media.mediaPosts =
        0 ∧
      (analyzeRecap [] profile targetYear likesOf repostsOf fi mi tz).core.media.type =
        "Text-only" ∧
      (analyzeRecap [] profile targetYear likesOf repostsOf fi mi tz).core.posterType.type =
        "Balanced" ∧
      (analyzeRecap [] profile targetYear likesOf repostsOf fi mi tz).core.postingAge.era =
        "2024s Bluesky" ∧
      (analyzeRecap [] profile targetYear likesOf repostsOf fi mi tz).core.threads =
        ⟨none, [], 0, 0, "Quiet Observer",
         "You mostly observe. Not much of a conversation starter, but that's okay."⟩ ∧
      (analyzeRecap [] profile targetYear likesOf repostsOf fi mi tz).core.engagementTimeline =
        ⟨"Unknown", "Unknown", 12, 0, 0, 0⟩ ∧
      (analyzeRecap [] profile targetYear likesOf repostsOf fi mi tz).core.visualizations.monthlyPosts =
        [] ∧
      (analyzeRecap [] profile targetYear likesOf repostsOf fi mi tz).core.visualizations.monthlyEngagement =
        [] := by
  intro profile targetYear likesOf repostsOf fi mi tz
  have htl : (analyzeRecap [] profile targetYear likesOf repostsOf fi mi
      tz).core.engagementTimeline =
      ⟨"Unknown", "Unknown", 12, jsRoundNat 0 1, jsRoundNat 0 1, jsRoundNat 0 1⟩ :=
    rfl
  have hjr : jsRoundNat 0 1 = 0 := rfl
  rw [hjr] at htl
  exact ⟨rfl, rfl, rfl, rfl, rfl, rfl, rfl, rfl, rfl, rfl, rfl, rfl, rfl, rfl,
    rfl, rfl, htl, rfl, rfl⟩

/-! ### C2: the timezone offset is dropped -/

/-- C2 (code bug).  The spec requires every time-bucketing facet to use
the caller-supplied offset, but `generateRecap` never forwards its
`timezoneOffsetMinutes` to `analyzeRecap` (which then defaults to 0),
and `analyzeRecap` calls `analyzeEngagementTimeline(ownPosts)` without
any offset.  At offset +120 and one own post at 23:30 UTC: the local
hour is 1, yet the recap reports peak hour 23; even calling
`analyzeRecap` directly with offset 120 leaves the engagement
timeline's best hour at 23 while the patterns facet says 1; and the
recap produced by `generateRecap` is the offset-0 recap for every
offset. -/
theorem generateRecap_drops_timezoneOffset :
    (getLocalTimeComponents ⟨2025, 5, 15, 23, 30, 0⟩ 120).hour = 1 ∧
    (generateRecapAnalysis [lateEveningPost] subjectProfile 2025 noEdges noEdges
        (some 1) (some 100) 120).core.patterns.peakHour = 23 ∧
    (analyzeRecap [lateEveningPost] subjectProfile 2025 noEdges noEdges
        (some 1) (some 100) 120).core.patterns.peakHour = 1 ∧
    (analyzeRecap [lateEveningPost] subjectProfile 2025 noEdges noEdges
        (some 1) (some 100) 120).core.engagementTimeline.bestHour = 23 ∧
    (∀ tz : Int,
      generateRecapAnalysis [lateEveningPost] subjectProfile 2025 noEdges noEdges
          (some 1) (some 100) tz =
        analyzeRecap [lateEveningPost] subjectProfile 2025 noEdges noEdges
          (some 1) (some 100) 0) := by
  exact ⟨by decide, by decide, by decide, by decide, fun _ => rfl⟩

/-! ### C9: facets vs. the `_debug` block -/

/-- C9 counterexample.  The recap is NOT invariant under removing
other-author items: the `_debug` facet records the raw fetched count,
so the recap for `[own, other]` differs from the recap for `[own]`. -/
theorem recap_not_invariant_under_other_author_removal :
    analyzeRecap [lateEveningPost, otherAuthorItem] subjectProfile 2025
        noEdges noEdges (some 1) (some 100) 0 ≠
      analyzeRecap [lateEveningPost] subjectProfile 2025
        noEdges noEdges (some 1) (some 100) 0 := by
  intro h
  exact absurd (congrArg (fun r => r.debug.totalPostsFetched) h) (by decide)

/-- C9 (amended).  Every facet of the recap EXCEPT the `_debug`
diagnostics block is computed exclusively from the items whose author
DID equals the profile's DID: removing all other-author items leaves
the whole `core` of the recap unchanged. -/
theorem recapCore_ignores_other_author_items :
    ∀ (posts : List FeedItem) (profile : Profile) (targetYear : Int)
      (likesOf repostsOf : String → List Actor) (fi mi : Option Nat) (tz : Int),
      (analyzeRecap posts profile targetYear likesOf repostsOf fi mi tz).core =
        (analyzeRecap (posts.filter (fun i => i.post.authorDid == profile.did))
            profile targetYear likesOf repostsOf fi mi tz).core := by
  intro posts profile targetYear likesOf repostsOf fi mi tz
  simp only [analyzeRecap]
  have hff : (posts.filter (fun i => i.post.authorDid == profile.did)).filter
      (fun i => i.post.authorDid == profile.did) =
      posts.filter (fun i => i.post.authorDid == profile.did) := by
    rw [List.filter_filter]
    congr 1
    funext a
    exact Bool.and_self _
  rw [hff]

/-! ### C3: exact totals and the rounded average -/

theorem foldl_add_eq_sum {α : Type} (f : α → Nat) :
    ∀ (l : List α) (n : Nat), l.foldl (fun s i => s + f i) n = n + (l.map f).sum := by
  intro l
  induction l with
  | nil => simp
  | cons a as ih =>
      intro n
      simp only [List.foldl_cons, List.map_cons, List.sum_cons, ih]
      omega

/-- `jsRoundNat` computes `Math.round` of the exact rational quotient:
`(2a + b) / (2b)` in `ℕ` is `⌊a/b + 1/2⌋`. -/
theorem jsRoundNat_eq_jsRound (a b : Nat) (hb : 0 < b) :
    (jsRoundNat a b : ℤ) = jsRound ((a : ℚ) / b) := by
  unfold jsRoundNat jsRound
  have hb' : ((b : ℚ)) ≠ 0 := by positivity
  have key : (a : ℚ) / b + 1 / 2 = ((2 * a + b : ℕ) : ℚ) / ((2 * b : ℕ) : ℚ) := by
    push_cast
    field_simp
    ring
  rw [key, Rat.floor_natCast_div_natCast]
  norm_cast

/-- C3.  The stats facet: each total is the exact sum of the per-post
counts over the filtered set, `totalEngagement` is their sum, and
`avgEngagement` is 0 on an empty set and otherwise
`Math.round(totalEngagement / totalPosts)` of the exact rational
quotient. -/
theorem stats_totals_avg :
    ∀ (posts : List FeedItem) (profile : Profile) (targetYear : Int)
      (likesOf repostsOf : String → List Actor) (fi mi : Option Nat) (tz : Int),
      (analyzeRecap posts profile targetYear likesOf repostsOf fi mi
          tz).core.stats.totalPosts =
        (posts.filter (fun i => i.post.authorDid == profile.did)).length ∧
      (analyzeRecap posts profile targetYear likesOf repostsOf fi mi
          tz).core.stats.totalLikes =
        ((posts.filter (fun i => i.post.authorDid == profile.did)).map
          (fun i => i.post.likeCount)).sum ∧
      (analyzeRecap posts profile targetYear likesOf repostsOf fi mi
          tz).core.stats.totalReposts =
        ((posts.filter (fun i => i.post.authorDid == profile.did)).map
          (fun i => i.post.repostCount)).sum ∧
      (analyzeRecap posts profile targetYear likesOf repostsOf fi mi
          tz).core.stats.totalReplies =
        ((posts.filter (fun i => i.post.authorDid == profile.did)).map
          (fun i => i.post.replyCount)).sum ∧
      (analyzeRecap posts profile targetYear likesOf repostsOf fi mi
          tz).core.stats.totalEngagement =
        (analyzeRecap posts profile targetYear likesOf repostsOf fi mi
            tz).core.stats.totalLikes +
        (analyzeRecap posts profile targetYear likesOf repostsOf fi mi
            tz).core.stats.totalReposts +
        (analyzeRecap posts profile targetYear likesOf repostsOf fi mi
            tz).core.stats.totalReplies ∧
      ((analyzeRecap posts profile targetYear likesOf repostsOf fi mi
          tz).core.stats.avgEngagement : ℤ) =
        (if (analyzeRecap posts profile targetYear likesOf repostsOf fi mi
            tz).core.stats.totalPosts = 0 then 0
         else jsRound
          (((analyzeRecap posts profile targetYear likesOf repostsOf fi mi
              tz).core.stats.totalEngagement : ℚ) /
            ((analyzeRecap posts profile targetYear likesOf repostsOf fi mi
              tz).core.stats.totalPosts : ℚ))) := by
  intro posts profile targetYear likesOf repostsOf fi mi tz
  have hP :
      (analyzeRecap posts profile targetYear likesOf repostsOf fi mi
        tz).core.stats.totalPosts =
      (posts.filter (fun i => i.post.authorDid == profile.did)).length := rfl
  have hL :
      (analyzeRecap posts profile targetYear likesOf repostsOf fi mi
        tz).core.stats.totalLikes =
      ((posts.filter (fun i => i.post.authorDid == profile.did)).map
        (fun i => i.post.likeCount)).sum := by
    show (posts.filter (fun i => i.post.authorDid == profile.did)).foldl
        (fun s i => s + i.post.likeCount) 0 = _
    rw [foldl_add_eq_sum]
    omega
  have hR :
      (analyzeRecap posts profile targetYear likesOf repostsOf fi mi
        tz).core.stats.totalReposts =
      ((posts.filter (fun i => i.post.authorDid == profile.did)).map
        (fun i => i.post.repostCount)).sum := by
    show (posts.filter (fun i => i.post.authorDid == profile.did)).foldl
        (fun s i => s + i.post.repostCount) 0 = _
    rw [foldl_add_eq_sum]
    omega
  have hRe :
      (analyzeRecap posts profile targetYear likesOf repostsOf fi mi
        tz).core.stats.totalReplies =
      ((posts.filter (fun i => i.post.authorDid == profile.did)).map
        (fun i => i.post.replyCount)).sum := by
    show (posts.filter (fun i => i.post.authorDid == profile.did)).foldl
        (fun s i => s + i.post.replyCount) 0 = _
    rw [foldl_add_eq_sum]
    omega
  refine ⟨hP, hL, hR, hRe, rfl, ?_⟩
  rw [hP]
  by_cases h0 : (posts.filter (fun i => i.post.authorDid == profile.did)).length = 0
  · rw [if_pos h0]
    show ((if 0 < (posts.filter (fun i => i.post.authorDid == profile.did)).length
        then jsRoundNat _ _ else 0 : Nat) : ℤ) = 0
    rw [if_neg (by omega)]
    rfl
  · rw [if_neg h0]
    have hE :
        (analyzeRecap posts profile targetYear likesOf repostsOf fi mi
          tz).core.stats.totalEngagement =
        ((posts.filter (fun i => i.post.authorDid == profile.did)).map
            (fun i => i.post.likeCount)).sum +
          ((posts.filter (fun i => i.post.authorDid == profile.did)).map
            (fun i => i.post.repostCount)).sum +
          ((posts.filter (fun i => i.post.authorDid == profile.did)).map
            (fun i => i.post.replyCount)).sum := by
      show (posts.filter (fun i => i.post.authorDid == profile.did)).foldl
            (fun s i => s + i.post.likeCount) 0 +
          (posts.filter (fun i => i.post.authorDid == profile.did)).foldl
            (fun s i => s + i.post.repostCount) 0 +
          (posts.filter (fun i => i.post.authorDid == profile.did)).foldl
            (fun s i => s + i.post.replyCount) 0 = _
      rw [foldl_add_eq_sum, foldl_add_eq_sum, foldl_add_eq_sum]
      omega
    rw [hE]
    have e1 : (posts.filter (fun i => i.post.authorDid == profile.did)).foldl
        (fun s i => s + i.post.likeCount) 0 =
        ((posts.filter (fun i => i.post.authorDid == profile.did)).map
          (fun i => i.post.likeCount)).sum := by
      rw [foldl_add_eq_sum]
      omega
    have e2 : (posts.filter (fun i => i.post.authorDid == profile.did)).foldl
        (fun s i => s + i.post.repostCount) 0 =
        ((posts.filter (fun i => i.post.authorDid == profile.did)).map
          (fun i => i.post.repostCount)).sum := by
      rw [foldl_add_eq_sum]
      omega
    have e3 : (posts.filter (fun i => i.post.authorDid == profile.did)).foldl
        (fun s i => s + i.post.replyCount) 0 =
        ((posts.filter (fun i => i.post.authorDid == profile.did)).map
          (fun i => i.post.replyCount)).sum := by
      rw [foldl_add_eq_sum]
      omega
    show ((if 0 < (posts.filter (fun i => i.post.authorDid == profile.did)).length
        then jsRoundNat
          ((posts.filter (fun i => i.post.authorDid == profile.did)).foldl
              (fun s i => s + i.post.likeCount) 0 +
            (posts.filter (fun i => i.post.authorDid == profile.did)).foldl
              (fun s i => s + i.post.repostCount) 0 +
            (posts.filter (fun i => i.post.authorDid == profile.did)).foldl
              (fun s i => s + i.post.replyCount) 0)
          (posts.filter (fun i => i.post.authorDid == profile.did)).length
        else 0 : Nat) : ℤ) = _
    rw [if_pos (by omega), e1, e2, e3]
    exact jsRoundNat_eq_jsRound _ _ (by omega)

/-! ### Stable descending sort: order and stability -/

theorem sortByDesc_sorted {α : Type} (score : α → Nat) (l : List α) :
    (sortByDesc score l).Pairwise (fun a b => score b ≤ score a) := by
  haveI : IsTotal α (fun a b => score b ≤ score a) := ⟨fun a b => Nat.le_total _ _⟩
  haveI : IsTrans α (fun a b => score b ≤ score a) :=
    ⟨fun _ _ _ h1 h2 => le_trans h2 h1⟩
  exact List.sorted_insertionSort _ l

/-- Stability of the stable descending sort, phrased per score class:
the sort permutes nothing within a score class, so filtering any single
score out of the sorted list returns exactly the input's occurrences in
their encounter order. -/
theorem sortByDesc_filter_score {α : Type} (score : α → Nat) (s : Nat) :
    ∀ l : List α,
      (sortByDesc score l).filter (fun a => score a == s) =
        l.filter (fun a => score a == s) := by
  intro l
  induction l with
  | nil => rfl
  | cons a l ih =>
      have hsplit := List.orderedInsert_eq_take_drop
        (r := fun x y : α => score y ≤ score x) a
        (List.insertionSort (fun x y : α => score y ≤ score x) l)
      show (List.orderedInsert (fun x y : α => score y ≤ score x) a
          (List.insertionSort (fun x y : α => score y ≤ score x) l)).filter
          (fun b => score b == s) =
        (a :: l).filter (fun b => score b == s)
      rw [hsplit, List.filter_append]
      have htw : ∀ b ∈ (List.insertionSort (fun x y : α => score y ≤ score x) l).takeWhile
          (fun b => decide ¬ (score b ≤ score a)), ¬ (score b ≤ score a) := by
        intro b hb
        have := List.mem_takeWhile_imp hb
        simpa using this
      have hjoin : (List.insertionSort (fun x y : α => score y ≤ score x) l).takeWhile
            (fun b => decide ¬ (score b ≤ score a)) ++
          (List.insertionSort (fun x y : α => score y ≤ score x) l).dropWhile
            (fun b => decide ¬ (score b ≤ score a)) =
          List.insertionSort (fun x y : α => score y ≤ score x) l :=
        List.takeWhile_append_dropWhile _ _
      have ih' : (List.insertionSort (fun x y : α => score y ≤ score x) l).filter
          (fun b => score b == s) = l.filter (fun b => score b == s) := by
        simpa [sortByDesc] using ih
      rw [List.filter_cons, List.filter_cons]
      by_cases hs : score a = s
      · have hfilterTW : ((List.insertionSort (fun x y : α => score y ≤ score x) l).takeWhile
            (fun b => decide ¬ (score b ≤ score a))).filter (fun b => score b == s) = [] := by
          refine List.filter_eq_nil_iff.2 ?_
          intro b hb
          have h1 := htw b hb
          simp only [beq_iff_eq]
          intro h2
          exact h1 (le_of_eq (h2.trans hs.symm))
        have hdw : ((List.insertionSort (fun x y : α => score y ≤ score x) l).dropWhile
              (fun b => decide ¬ (score b ≤ score a))).filter (fun b => score b == s) =
            (List.insertionSort (fun x y : α => score y ≤ score x) l).filter
              (fun b => score b == s) := by
          conv_rhs => rw [← hjoin]
          rw [List.filter_append, hfilterTW, List.nil_append]
        rw [hfilterTW, List.nil_append, if_pos (by simpa using hs),
          if_pos (by simpa using hs), hdw, ih']
      · rw [if_neg (by simpa using hs), if_neg (by simpa using hs),
          ← List.filter_append, hjoin, ih']

/-! ### Fan-tally bookkeeping

`tallyLikes d m` / `tallyReposts d m` are the like/repost counts the
tally `m` records for DID `d`; the fold lemmas show the tally counts
exactly the edge occurrences of each non-subject DID, using the
invariant that the tally never holds two entries with the same DID. -/

def tallyLikes (d : String) (m : List FanTally) : Nat :=
  ((m.filter (fun f => f.did == d)).map FanTally.likes).sum

def tallyReposts (d : String) (m : List FanTally) : Nat :=
  ((m.filter (fun f => f.did == d)).map FanTally.reposts).sum

def countFanEntries (d : String) (m : List FanTally) : Nat :=
  (m.filter (fun f => f.did == d)).length

/-- The sound like-edge tally: for each sampled post, the number of its
like edges whose actor is `d`. -/
def likeEdgeTally (likesOf : String → List Actor) (posts : List FeedItem)
    (d : String) : Nat :=
  ((sampledPostsOf posts).map
    (fun i => ((likesOf i.post.uri).filter (fun a => a.did == d)).length)).sum

def repostEdgeTally (repostsOf : String → List Actor) (posts : List FeedItem)
    (d : String) : Nat :=
  ((sampledPostsOf posts).map
    (fun i => ((repostsOf i.post.uri).filter (fun a => a.did == d)).length)).sum

theorem tallyLikes_cons (d : String) (f : FanTally) (m : List FanTally) :
    tallyLikes d (f :: m) =
      (if f.did == d then f.likes else 0) + tallyLikes d m := by
  simp only [tallyLikes, List.filter_cons]
  split <;> simp

theorem tallyReposts_cons (d : String) (f : FanTally) (m : List FanTally) :
    tallyReposts d (f :: m) =
      (if f.did == d then f.reposts else 0) + tallyReposts d m := by
  simp only [tallyReposts, List.filter_cons]
  split <;> simp

theorem countFanEntries_cons (d : String) (f : FanTally) (m : List FanTally) :
    countFanEntries d (f :: m) =
      (if f.did == d then 1 else 0) + countFanEntries d m := by
  simp only [countFanEntries, List.filter_cons]
  split <;> simp [Nat.add_comm]

theorem tallyLikes_append (d : String) (m1 m2 : List FanTally) :
    tallyLikes d (m1 ++ m2) = tallyLikes d m1 + tallyLikes d m2 := by
  simp [tallyLikes, List.filter_append]

theorem tallyReposts_append (d : String) (m1 m2 : List FanTally) :
    tallyReposts d (m1 ++ m2) = tallyReposts d m1 + tallyReposts d m2 := by
  simp [tallyReposts, List.filter_append]

theorem countFanEntries_append (d : String) (m1 m2 : List FanTally) :
    countFanEntries d (m1 ++ m2) = countFanEntries d m1 + countFanEntries d m2 := by
  simp [countFanEntries, List.filter_append]

theorem tallyLikes_ensure (a : Actor) (m : List FanTally) (d : String) :
    tallyLikes d (ensureTally a m) = tallyLikes d m := by
  unfold ensureTally
  split
  · rfl
  · rw [tallyLikes_append]
    simp only [tallyLikes, newTally, List.filter_cons, List.filter_nil]
    split <;> simp

theorem tallyReposts_ensure (a : Actor) (m : List FanTally) (d : String) :
    tallyReposts d (ensureTally a m) = tallyReposts d m := by
  unfold ensureTally
  split
  · rfl
  · rw [tallyReposts_append]
    simp only [tallyReposts, newTally, List.filter_cons, List.filter_nil]
    split <;> simp

/-- A DID missing from the tally has no entries. -/
theorem countFanEntries_eq_zero (d : String) (m : List FanTally)
    (h : d ∉ m.map FanTally.did) : countFanEntries d m = 0 := by
  induction m with
  | nil => rfl
  | cons f fs ih =>
      rw [countFanEntries_cons]
      simp only [List.map_cons, List.mem_cons] at h
      push_neg at h
      rw [if_neg (by simp [Ne.symm h.1]), ih h.2]

/-- With unique DIDs, a DID present in the tally has exactly one entry. -/
theorem countFanEntries_eq_one (d : String) (m : List FanTally)
    (hn : (m.map FanTally.did).Nodup) (hmem : d ∈ m.map FanTally.did) :
    countFanEntries d m = 1 := by
  induction m with
  | nil => simp at hmem
  | cons f fs ih =>
      simp only [List.map_cons, List.nodup_cons] at hn
      simp only [List.map_cons, List.mem_cons] at hmem
      rw [countFanEntries_cons]
      rcases hmem with hmem | hmem
      · rw [if_pos (by simp [hmem]), countFanEntries_eq_zero d fs (hmem ▸ hn.1)]
      · have hne : ¬ f.did = d := by
          intro he
          exact hn.1 (he ▸ hmem)
        rw [if_neg (by simp [hne]), ih hn.2 hmem]

/-- Presence of a DID after `ensureTally`. -/
theorem countFanEntries_ensure_self (a : Actor) (m : List FanTally)
    (hn : (m.map FanTally.did).Nodup) :
    countFanEntries a.did (ensureTally a m) = 1 := by
  unfold ensureTally
  split
  · next hany =>
      rcases List.any_eq_true.1 hany with ⟨f, hf, hdid⟩
      refine countFanEntries_eq_one a.did m hn ?_
      have : f.did = a.did := by simpa using hdid
      exact this ▸ List.mem_map_of_mem FanTally.did hf
  · next hany =>
      have hnot : a.did ∉ m.map FanTally.did := by
        intro hmem
        rcases List.mem_map.1 hmem with ⟨f, hf, hdid⟩
        exact hany (List.any_eq_true.2 ⟨f, hf, by simp [hdid]⟩)
      rw [countFanEntries_append, countFanEntries_eq_zero a.did m hnot]
      simp [countFanEntries, newTally]

/-- Bumping the like counter of DID `x` raises `tallyLikes d` by the
number of entries for `d` exactly when `x = d`. -/
theorem tallyLikes_map_bump (x d : String) (m : List FanTally) :
    tallyLikes d (m.map
      (fun f => if f.did == x then { f with likes := f.likes + 1 } else f)) =
      tallyLikes d m + (if x == d then countFanEntries d m else 0) := by
  induction m with
  | nil => simp [tallyLikes, countFanEntries]
  | cons f fs ih =>
      simp only [List.map_cons]
      rw [tallyLikes_cons, tallyLikes_cons, countFanEntries_cons, ih]
      by_cases hfx : f.did = x <;> by_cases hxd : x = d <;>
        by_cases hfd : f.did = d <;> simp_all <;> omega

/-- Bumping a like counter never touches repost counts. -/
theorem tallyReposts_map_bumpLike (x d : String) (m : List FanTally) :
    tallyReposts d (m.map
      (fun f => if f.did == x then { f with likes := f.likes + 1 } else f)) =
      tallyReposts d m := by
  induction m with
  | nil => rfl
  | cons f fs ih =>
      simp only [List.map_cons]
      rw [tallyReposts_cons, tallyReposts_cons, ih]
      by_cases hfx : f.did = x <;> by_cases hfd : f.did = d <;> simp_all

theorem tallyReposts_map_bump (x d : String) (m : List FanTally) :
    tallyReposts d (m.map
      (fun f => if f.did == x then { f with reposts := f.reposts + 1 } else f)) =
      tallyReposts d m + (if x == d then countFanEntries d m else 0) := by
  induction m with
  | nil => simp [tallyReposts, countFanEntries]
  | cons f fs ih =>
      simp only [List.map_cons]
      rw [tallyReposts_cons, tallyReposts_cons, countFanEntries_cons, ih]
      by_cases hfx : f.did = x <;> by_cases hxd : x = d <;>
        by_cases hfd : f.did = d <;> simp_all <;> omega

theorem tallyLikes_map_bumpRepost (x d : String) (m : List FanTally) :
    tallyLikes d (m.map
      (fun f => if f.did == x then { f with reposts := f.reposts + 1 } else f)) =
      tallyLikes d m := by
  induction m with
  | nil => rfl
  | cons f fs ih =>
      simp only [List.map_cons]
      rw [tallyLikes_cons, tallyLikes_cons, ih]
      by_cases hfx : f.did = x <;> by_cases hfd : f.did = d <;> simp_all

theorem dids_map_update (g : FanTally → FanTally) (hg : ∀ f, (g f).did = f.did)
    (m : List FanTally) : (m.map g).map FanTally.did = m.map FanTally.did := by
  induction m with
  | nil => rfl
  | cons f fs ih => simp [hg, ih]

theorem nodup_ensure (a : Actor) (m : List FanTally)
    (hn : (m.map FanTally.did).Nodup) :
    ((ensureTally a m).map FanTally.did).Nodup := by
  unfold ensureTally
  split
  · exact hn
  · next hany =>
      rw [List.map_append]
      refine List.Nodup.append hn (by simp) ?_
      intro x hx hx2
      simp only [List.map_cons, List.map_nil, List.mem_singleton, newTally] at hx2
      rcases List.mem_map.1 hx with ⟨f, hf, hdid⟩
      exact hany (List.any_eq_true.2 ⟨f, hf, by simp [hdid, hx2]⟩)

theorem nodup_addLikeEdge (pdid : String) (m : List FanTally) (a : Actor)
    (hn : (m.map FanTally.did).Nodup) :
    ((addLikeEdge pdid m a).map FanTally.did).Nodup := by
  unfold addLikeEdge
  split
  · exact hn
  · rw [dids_map_update _ (fun f => by by_cases h : f.did = a.did <;> simp [h])]
    exact nodup_ensure a m hn

theorem nodup_addRepostEdge (pdid : String) (m : List FanTally) (a : Actor)
    (hn : (m.map FanTally.did).Nodup) :
    ((addRepostEdge pdid m a).map FanTally.did).Nodup := by
  unfold addRepostEdge
  split
  · exact hn
  · rw [dids_map_update _ (fun f => by by_cases h : f.did = a.did <;> simp [h])]
    exact nodup_ensure a m hn

theorem tallyLikes_addLikeEdge (pdid : String) (m : List FanTally) (a : Actor)
    (d : String) (hd : ¬ d = pdid) (hn : (m.map FanTally.did).Nodup) :
    tallyLikes d (addLikeEdge pdid m a) =
      tallyLikes d m + (if a.did == d then 1 else 0) := by
  unfold addLikeEdge
  split
  · next hskip =>
      have hne : ¬ a.did = d := by
        intro h
        exact hd (h ▸ (by simpa using hskip))
      rw [if_neg (by simpa using hne), Nat.add_zero]
  · rw [tallyLikes_map_bump, tallyLikes_ensure]
    by_cases had : a.did = d
    · have h1 : countFanEntries d (ensureTally a m) = 1 := by
        rw [← had]
        exact countFanEntries_ensure_self a m hn
      rw [if_pos (by simpa using had), if_pos (by simpa using had), h1]
    · rw [if_neg (by simpa using had), if_neg (by simpa using had)]

theorem tallyReposts_addLikeEdge (pdid : String) (m : List FanTally) (a : Actor)
    (d : String) : tallyReposts d (addLikeEdge pdid m a) = tallyReposts d m := by
  unfold addLikeEdge
  split
  · rfl
  · rw [tallyReposts_map_bumpLike, tallyReposts_ensure]

theorem tallyReposts_addRepostEdge (pdid : String) (m : List FanTally) (a : Actor)
    (d : String) (hd : ¬ d = pdid) (hn : (m.map FanTally.did).Nodup) :
    tallyReposts d (addRepostEdge pdid m a) =
      tallyReposts d m + (if a.did == d then 1 else 0) := by
  unfold addRepostEdge
  split
  · next hskip =>
      have hne : ¬ a.did = d := by
        intro h
        exact hd (h ▸ (by simpa using hskip))
      rw [if_neg (by simpa using hne), Nat.add_zero]
  · rw [tallyReposts_map_bump, tallyReposts_ensure]
    by_cases had : a.did = d
    · have h1 : countFanEntries d (ensureTally a m) = 1 := by
        rw [← had]
        exact countFanEntries_ensure_self a m hn
      rw [if_pos (by simpa using had), if_pos (by simpa using had), h1]
    · rw [if_neg (by simpa using had), if_neg (by simpa using had)]

theorem tallyLikes_addRepostEdge (pdid : String) (m : List FanTally) (a : Actor)
    (d : String) : tallyLikes d (addRepostEdge pdid m a) = tallyLikes d m := by
  unfold addRepostEdge
  split
  · rfl
  · rw [tallyLikes_map_bumpRepost, tallyLikes_ensure]

theorem nodup_foldl_likeEdges (pdid : String) :
    ∀ (edges : List Actor) (m : List FanTally), (m.map FanTally.did).Nodup →
      ((edges.foldl (addLikeEdge pdid) m).map FanTally.did).Nodup := by
  intro edges
  induction edges with
  | nil => intro m hn; exact hn
  | cons a as ih => intro m hn; exact ih _ (nodup_addLikeEdge pdid m a hn)

theorem nodup_foldl_repostEdges (pdid : String) :
    ∀ (edges : List Actor) (m : List FanTally), (m.map FanTally.did).Nodup →
      ((edges.foldl (addRepostEdge pdid) m).map FanTally.did).Nodup := by
  intro edges
  induction edges with
  | nil => intro m hn; exact hn
  | cons a as ih => intro m hn; exact ih _ (nodup_addRepostEdge pdid m a hn)

theorem tallyLikes_foldl_likeEdges (pdid d : String) (hd : ¬ d = pdid) :
    ∀ (edges : List Actor) (m : List FanTally), (m.map FanTally.did).Nodup →
      tallyLikes d (edges.foldl (addLikeEdge pdid) m) =
        tallyLikes d m + (edges.filter (fun a => a.did == d)).length := by
  intro edges
  induction edges with
  | nil => intro m _; simp
  | cons a as ih =>
      intro m hn
      rw [List.foldl_cons, ih _ (nodup_addLikeEdge pdid m a hn),
        tallyLikes_addLikeEdge pdid m a d hd hn, List.filter_cons]
      split <;> simp <;> omega

theorem tallyReposts_foldl_likeEdges (pdid d : String) :
    ∀ (edges : List Actor) (m : List FanTally),
      tallyReposts d (edges.foldl (addLikeEdge pdid) m) = tallyReposts d m := by
  intro edges
  induction edges with
  | nil => intro m; rfl
  | cons a as ih =>
      intro m
      rw [List.foldl_cons, ih, tallyReposts_addLikeEdge]

theorem tallyReposts_foldl_repostEdges (pdid d : String) (hd : ¬ d = pdid) :
    ∀ (edges : List Actor) (m : List FanTally), (m.map FanTally.did).Nodup →
      tallyReposts d (edges.foldl (addRepostEdge pdid) m) =
        tallyReposts d m + (edges.filter (fun a => a.did == d)).length := by
  intro edges
  induction edges with
  | nil => intro m _; simp
  | cons a as ih =>
      intro m hn
      rw [List.foldl_cons, ih _ (nodup_addRepostEdge pdid m a hn),
        tallyReposts_addRepostEdge pdid m a d hd hn, List.filter_cons]
      split <;> simp <;> omega

theorem tallyLikes_foldl_repostEdges (pdid d : String) :
    ∀ (edges : List Actor) (m : List FanTally),
      tallyLikes d (edges.foldl (addRepostEdge pdid) m) = tallyLikes d m := by
  intro edges
  induction edges with
  | nil => intro m; rfl
  | cons a as ih =>
      intro m
      rw [List.foldl_cons, ih, tallyLikes_addRepostEdge]

/-- One fan-tally step per sampled post: like edges, then repost edges. -/
def tallyStep (likesOf repostsOf : String → List Actor) (pdid : String)
    (m : List FanTally) (i : FeedItem) : List FanTally :=
  (repostsOf i.post.uri).foldl (addRepostEdge pdid)
    ((likesOf i.post.uri).foldl (addLikeEdge pdid) m)

theorem fanCountsOf_eq_foldl (likesOf repostsOf : String → List Actor)
    (posts : List FeedItem) (pdid : String) :
    fanCountsOf likesOf repostsOf posts pdid =
      (sampledPostsOf posts).foldl (tallyStep likesOf repostsOf pdid) [] := rfl

theorem nodup_tallyStep (likesOf repostsOf : String → List Actor) (pdid : String)
    (m : List FanTally) (i : FeedItem) (hn : (m.map FanTally.did).Nodup) :
    ((tallyStep likesOf repostsOf pdid m i).map FanTally.did).Nodup :=
  nodup_foldl_repostEdges pdid _ _ (nodup_foldl_likeEdges pdid _ m hn)

theorem tally_foldl_items (likesOf repostsOf : String → List Actor)
    (pdid d : String) (hd : ¬ d = pdid) :
    ∀ (items : List FeedItem) (m : List FanTally), (m.map FanTally.did).Nodup →
      tallyLikes d (items.foldl (tallyStep likesOf repostsOf pdid) m) =
        tallyLikes d m +
          ((items.map (fun i => ((likesOf i.post.uri).filter
            (fun a => a.did == d)).length)).sum) ∧
      tallyReposts d (items.foldl (tallyStep likesOf repostsOf pdid) m) =
        tallyReposts d m +
          ((items.map (fun i => ((repostsOf i.post.uri).filter
            (fun a => a.did == d)).length)).sum) := by
  intro items
  induction items with
  | nil => intro m _; simp
  | cons i is ih =>
      intro m hn
      have hn2 := nodup_tallyStep likesOf repostsOf pdid m i hn
      obtain ⟨ihL, ihR⟩ := ih (tallyStep likesOf repostsOf pdid m i) hn2
      constructor
      · rw [List.foldl_cons, ihL]
        show tallyLikes d ((repostsOf i.post.uri).foldl (addRepostEdge pdid)
            ((likesOf i.post.uri).foldl (addLikeEdge pdid) m)) + _ = _
        rw [tallyLikes_foldl_repostEdges,
          tallyLikes_foldl_likeEdges pdid d hd _ m hn]
        simp [Nat.add_assoc]
      · rw [List.foldl_cons, ihR]
        show tallyReposts d ((repostsOf i.post.uri).foldl (addRepostEdge pdid)
            ((likesOf i.post.uri).foldl (addLikeEdge pdid) m)) + _ = _
        rw [tallyReposts_foldl_repostEdges pdid d hd _ _
            (nodup_foldl_likeEdges pdid _ m hn),
          tallyReposts_foldl_likeEdges]
        simp [Nat.add_assoc]

theorem nodup_fanCounts (likesOf repostsOf : String → List Actor)
    (posts : List FeedItem) (pdid : String) :
    ((fanCountsOf likesOf repostsOf posts pdid).map FanTally.did).Nodup := by
  rw [fanCountsOf_eq_foldl]
  have h : ∀ (items : List FeedItem) (m : List FanTally),
      (m.map FanTally.did).Nodup →
      ((items.foldl (tallyStep likesOf repostsOf pdid) m).map FanTally.did).Nodup := by
    intro items
    induction items with
    | nil => intro m hn; exact hn
    | cons i is ih =>
        intro m hn
        exact ih _ (nodup_tallyStep likesOf repostsOf pdid m i hn)
  exact h _ [] (by simp)

theorem fanCounts_tally_eq (likesOf repostsOf : String → List Actor)
    (posts : List FeedItem) (pdid d : String) (hd : ¬ d = pdid) :
    tallyLikes d (fanCountsOf likesOf repostsOf posts pdid) =
      likeEdgeTally likesOf posts d ∧
    tallyReposts d (fanCountsOf likesOf repostsOf posts pdid) =
      repostEdgeTally repostsOf posts d := by
  rw [fanCountsOf_eq_foldl]
  obtain ⟨hL, hR⟩ := tally_foldl_items likesOf repostsOf pdid d hd
    (sampledPostsOf posts) [] (by simp)
  constructor
  · rw [hL]
    simp [tallyLikes, likeEdgeTally]
  · rw [hR]
    simp [tallyReposts, repostEdgeTally]

/-- Every tally entry belongs to an actor other than the subject. -/
theorem fanCounts_did_ne (likesOf repostsOf : String → List Actor)
    (posts : List FeedItem) (pdid : String) :
    ∀ f ∈ fanCountsOf likesOf repostsOf posts pdid, ¬ f.did = pdid := by
  have hensure : ∀ (a : Actor) (m : List FanTally), ¬ (a.did == pdid) = true →
      (∀ f ∈ m, ¬ f.did = pdid) → ∀ f ∈ ensureTally a m, ¬ f.did = pdid := by
    intro a m ha hm f hf
    unfold ensureTally at hf
    split at hf
    · exact hm f hf
    · rcases List.mem_append.1 hf with hf | hf
      · exact hm f hf
      · simp only [List.mem_singleton] at hf
        subst hf
        simpa using ha
  have hlike : ∀ (a : Actor) (m : List FanTally), (∀ f ∈ m, ¬ f.did = pdid) →
      ∀ f ∈ addLikeEdge pdid m a, ¬ f.did = pdid := by
    intro a m hm f hf
    unfold addLikeEdge at hf
    split at hf
    · exact hm f hf
    · next ha =>
        rcases List.mem_map.1 hf with ⟨g, hg, hgf⟩
        have hgd := hensure a m ha hm g hg
        subst hgf
        have hid : (if g.did == a.did then
            { g with likes := g.likes + 1 } else g).did = g.did := by
          by_cases h : g.did = a.did <;> simp [h]
        intro hcontra
        rw [hid] at hcontra
        exact hgd hcontra
  have hrepost : ∀ (a : Actor) (m : List FanTally), (∀ f ∈ m, ¬ f.did = pdid) →
      ∀ f ∈ addRepostEdge pdid m a, ¬ f.did = pdid := by
    intro a m hm f hf
    unfold addRepostEdge at hf
    split at hf
    · exact hm f hf
    · next ha =>
        rcases List.mem_map.1 hf with ⟨g, hg, hgf⟩
        have hgd := hensure a m ha hm g hg
        subst hgf
        have hid : (if g.did == a.did then
            { g with reposts := g.reposts + 1 } else g).did = g.did := by
          by_cases h : g.did = a.did <;> simp [h]
        intro hcontra
        rw [hid] at hcontra
        exact hgd hcontra
  have hfoldL : ∀ (edges : List Actor) (m : List FanTally),
      (∀ f ∈ m, ¬ f.did = pdid) →
      ∀ f ∈ edges.foldl (addLikeEdge pdid) m, ¬ f.did = pdid := by
    intro edges
    induction edges with
    | nil => intro m hm; exact hm
    | cons a as ih => intro m hm; exact ih _ (hlike a m hm)
  have hfoldR : ∀ (edges : List Actor) (m : List FanTally),
      (∀ f ∈ m, ¬ f.did = pdid) →
      ∀ f ∈ edges.foldl (addRepostEdge pdid) m, ¬ f.did = pdid := by
    intro edges
    induction edges with
    | nil => intro m hm; exact hm
    | cons a as ih => intro m hm; exact ih _ (hrepost a m hm)
  have hitems : ∀ (items : List FeedItem) (m : List FanTally),
      (∀ f ∈ m, ¬ f.did = pdid) →
      ∀ f ∈ items.foldl (tallyStep likesOf repostsOf pdid) m, ¬ f.did = pdid := by
    intro items
    induction items with
    | nil => intro m hm; exact hm
    | cons i is ih =>
        intro m hm
        exact ih _ (hfoldR _ _ (hfoldL _ _ hm))
  rw [fanCountsOf_eq_foldl]
  exact hitems _ [] (by simp)

/-- With unique DIDs, an entry's counters are exactly the tally totals
of its DID. -/
theorem mem_tally_values (m : List FanTally) (hn : (m.map FanTally.did).Nodup) :
    ∀ f ∈ m, tallyLikes f.did m = f.likes ∧ tallyReposts f.did m = f.reposts := by
  induction m with
  | nil => intro f hf; simp at hf
  | cons g gs ih =>
      intro f hf
      simp only [List.map_cons, List.nodup_cons] at hn
      rcases List.mem_cons.1 hf with hf | hf
      · subst hf
        have hz : countFanEntries f.did gs = 0 :=
          countFanEntries_eq_zero f.did gs hn.1
        have hzl : tallyLikes f.did gs = 0 := by
          unfold tallyLikes
          unfold countFanEntries at hz
          rw [List.length_eq_zero] at hz
          rw [hz]
          rfl
        have hzr : tallyReposts f.did gs = 0 := by
          unfold tallyReposts
          unfold countFanEntries at hz
          rw [List.length_eq_zero] at hz
          rw [hz]
          rfl
        rw [tallyLikes_cons, tallyReposts_cons, hzl, hzr, if_pos (by simp),
          if_pos (by simp)]
        omega
      · have hne : ¬ g.did = f.did := by
          intro he
          exact hn.1 (he ▸ List.mem_map_of_mem FanTally.did hf)
        obtain ⟨hL, hR⟩ := ih hn.2 f hf
        rw [tallyLikes_cons, tallyReposts_cons, if_neg (by simpa using hne),
          if_neg (by simpa using hne), hL, hR]
        omega

/-- C5.  `getTopFans` returns at most 5 fans; the subject's own DID
never appears; each fan's score is (their tallied likes over the
sampled posts' like edges) + 2 · (their tallied reposts); the result is
sorted by score descending; and within any score class the result keeps
the tally's first-encounter order (it is a sublist of the encounter-
ordered fan list restricted to that score). -/
theorem getTopFans_spec (likesOf repostsOf : String → List Actor)
    (posts : List FeedItem) (profileDid : String) :
    (getTopFans likesOf repostsOf posts profileDid).length ≤ 5 ∧
    (∀ f ∈ getTopFans likesOf repostsOf posts profileDid,
      ¬ f.did = profileDid) ∧
    (∀ f ∈ getTopFans likesOf repostsOf posts profileDid,
      f.score = likeEdgeTally likesOf posts f.did +
        2 * repostEdgeTally repostsOf posts f.did) ∧
    (getTopFans likesOf repostsOf posts profileDid).Pairwise
      (fun a b => b.score ≤ a.score) ∧
    (∀ s : Nat,
      ((getTopFans likesOf repostsOf posts profileDid).filter
        (fun f => f.score == s)).Sublist
      (((fanCountsOf likesOf repostsOf posts profileDid).map toFan).filter
        (fun f => f.score == s))) := by
  have hmem : ∀ f ∈ getTopFans likesOf repostsOf posts profileDid,
      ∃ t ∈ fanCountsOf likesOf repostsOf posts profileDid, toFan t = f := by
    intro f hf
    have h2 : f ∈ sortByDesc (fun f : Fan => f.score)
        ((fanCountsOf likesOf repostsOf posts profileDid).map toFan) :=
      List.take_subset 5 _ hf
    have h3 : f ∈ (fanCountsOf likesOf repostsOf posts profileDid).map toFan := by
      have := (List.mem_insertionSort
        (fun a b : Fan => b.score ≤ a.score)).1 h2
      exact this
    exact List.mem_map.1 h3
  refine ⟨?_, ?_, ?_, ?_, ?_⟩
  · exact List.length_take_le 5 _
  · intro f hf
    obtain ⟨t, ht, htf⟩ := hmem f hf
    have := fanCounts_did_ne likesOf repostsOf posts profileDid t ht
    rw [← htf]
    simpa [toFan] using this
  · intro f hf
    obtain ⟨t, ht, htf⟩ := hmem f hf
    have hdt : ¬ t.did = profileDid :=
      fanCounts_did_ne likesOf repostsOf posts profileDid t ht
    obtain ⟨hvL, hvR⟩ := mem_tally_values _
      (nodup_fanCounts likesOf repostsOf posts profileDid) t ht
    obtain ⟨heL, heR⟩ := fanCounts_tally_eq likesOf repostsOf posts profileDid
      t.did hdt
    rw [← htf]
    show t.likes + t.reposts * 2 =
      likeEdgeTally likesOf posts (toFan t).did +
        2 * repostEdgeTally repostsOf posts (toFan t).did
    have hdid : (toFan t).did = t.did := rfl
    rw [hdid, ← heL, ← heR, hvL, hvR]
    omega
  · refine List.Pairwise.sublist (List.take_sublist 5 _) ?_
    exact sortByDesc_sorted (fun f : Fan => f.score) _
  · intro s
    have h1 : ((getTopFans likesOf repostsOf posts profileDid).filter
        (fun f => f.score == s)).Sublist
        ((sortByDesc (fun f : Fan => f.score)
          ((fanCountsOf likesOf repostsOf posts profileDid).map toFan)).filter
          (fun f => f.score == s)) :=
      List.Sublist.filter _ (List.take_sublist 5 _)
    rw [sortByDesc_filter_score] at h1
    exact h1

/-! #### Concrete fixtures and witness for C5 -/

def fanPost : FeedItem :=
  ⟨⟨"at://p1", "did:plc:me", ⟨⟨2025, 0, 1, 0, 0, 0⟩, "", false, EmbedType.none⟩,
    3, 1, 0⟩⟩

def actorA : Actor := ⟨"did:plc:alice", "alice.bsky.social", "", ""⟩

def actorB : Actor := ⟨"did:plc:bob", "bob.bsky.social", "", ""⟩

def likeEdges : String → List Actor := fun _ => [actorA, actorB, actorA]

def repostEdges : String → List Actor := fun _ => [actorB]

/-- Witness for C5: Bob (1 like + 1 repost, score 3) is in the result;
he is not the subject and his score is his like tally plus twice his
repost tally. -/
theorem getTopFans_spec_witness :
    ¬ (Fan.mk "did:plc:bob" "bob.bsky.social" "bob.bsky.social" "" 1 1 3).did =
      "did:plc:me" ∧
    (Fan.mk "did:plc:bob" "bob.bsky.social" "bob.bsky.social" "" 1 1 3).score =
      likeEdgeTally likeEdges [fanPost]
        (Fan.mk "did:plc:bob" "bob.bsky.social" "bob.bsky.social" "" 1 1 3).did +
      2 * repostEdgeTally repostEdges [fanPost]
        (Fan.mk "did:plc:bob" "bob.bsky.social" "bob.bsky.social" "" 1 1 3).did := by
  have h := getTopFans_spec likeEdges repostEdges [fanPost] "did:plc:me"
  exact ⟨h.2.1 _ (by decide), h.2.2.1 _ (by decide)⟩

/-! ### C4: streak monotonicity

The streak loop over the sorted distinct date list computes the longest
run of consecutive days.  Inserting a day into the (strictly ascending)
date list can only extend or preserve runs — an integer cannot fall
strictly between two consecutive days — so the computed streak is
monotone under adding posts. -/

theorem streakGo_max (l : List Int) :
    ∀ (prev : Int) (L C : Nat),
      streakGo prev l L C = max L (streakGo prev l 0 C) := by
  induction l with
  | nil =>
      intro prev L C
      show max L C = max L (max 0 C)
      omega
  | cons d rest ih =>
      intro prev L C
      by_cases h : d - prev = 1
      · simp only [streakGo, if_pos h]
        exact ih d L (C + 1)
      · simp only [streakGo, if_neg h]
        rw [ih d (max L C) 1, ih d (max 0 C) 1]
        omega

theorem streakGo_ge (l : List Int) :
    ∀ (prev : Int) (L C : Nat), max L C ≤ streakGo prev l L C := by
  induction l with
  | nil =>
      intro prev L C
      exact le_refl _
  | cons d rest ih =>
      intro prev L C
      by_cases h : d - prev = 1
      · simp only [streakGo, if_pos h]
        have := ih d L (C + 1)
        omega
      · simp only [streakGo, if_neg h]
        have := ih d (max L C) 1
        omega

theorem streakGo_mono (l : List Int) :
    ∀ (prev : Int) (L L' C C' : Nat), L ≤ L' → C ≤ C' →
      streakGo prev l L C ≤ streakGo prev l L' C' := by
  induction l with
  | nil =>
      intro prev L L' C C' hL hC
      show max L C ≤ max L' C'
      omega
  | cons d rest ih =>
      intro prev L L' C C' hL hC
      by_cases h : d - prev = 1
      · simp only [streakGo, if_pos h]
        exact ih d L L' (C + 1) (C' + 1) hL (by omega)
      · simp only [streakGo, if_neg h]
        exact ih d (max L C) (max L' C') 1 1 (by omega) (le_refl 1)

/-- Inserting a later day `d` into the strictly ascending tail `l` never
decreases the streak loop's result. -/
theorem streakGo_insert (d : Int) :
    ∀ (l : List Int) (prev : Int), List.Pairwise (· < ·) (prev :: l) →
      prev < d → ∀ (L C : Nat),
      streakGo prev l L C ≤ streakGo prev (insertSortedDistinct d l) L C := by
  intro l
  induction l with
  | nil =>
      intro prev _ hpd L C
      show max L C ≤ streakGo prev [d] L C
      simp only [insertSortedDistinct, streakGo]
      by_cases h : d - prev = 1
      · rw [if_pos h]
        show max L C ≤ max L (C + 1)
        omega
      · rw [if_neg h]
        show max L C ≤ max (max L C) 1
        omega
  | cons x xs ih =>
      intro prev hp hpd L C
      have hpx : prev < x := (List.pairwise_cons.1 hp).1 x (List.mem_cons_self _ _)
      have hptail : List.Pairwise (· < ·) (x :: xs) := (List.pairwise_cons.1 hp).2
      show streakGo prev (x :: xs) L C ≤
        streakGo prev (insertSortedDistinct d (x :: xs)) L C
      unfold insertSortedDistinct
      by_cases h1 : d < x
      · rw [if_pos h1]
        have hxp : ¬ (x - prev = 1) := by omega
        by_cases h2 : d - prev = 1
        · by_cases h3 : x - d = 1
          · show streakGo prev (x :: xs) L C ≤ streakGo prev (d :: x :: xs) L C
            simp only [streakGo, if_neg hxp, if_pos h2, if_pos h3]
            rw [streakGo_max xs x (max L C) 1, streakGo_max xs x L (C + 2)]
            have hm := streakGo_mono xs x 0 0 1 (C + 2) (le_refl 0) (by omega)
            have hg := streakGo_ge xs x 0 (C + 2)
            omega
          · show streakGo prev (x :: xs) L C ≤ streakGo prev (d :: x :: xs) L C
            simp only [streakGo, if_neg hxp, if_pos h2, if_neg h3]
            exact streakGo_mono xs x (max L C) (max L (C + 1)) 1 1 (by omega)
              (le_refl 1)
        · by_cases h3 : x - d = 1
          · show streakGo prev (x :: xs) L C ≤ streakGo prev (d :: x :: xs) L C
            simp only [streakGo, if_neg hxp, if_neg h2, if_pos h3]
            exact streakGo_mono xs x (max L C) (max L C) 1 2 (le_refl _) (by omega)
          · show streakGo prev (x :: xs) L C ≤ streakGo prev (d :: x :: xs) L C
            simp only [streakGo, if_neg hxp, if_neg h2, if_neg h3]
            exact streakGo_mono xs x (max L C) (max (max L C) 1) 1 1 (by omega)
              (le_refl 1)
      · rw [if_neg h1]
        by_cases h2 : d = x
        · rw [if_pos h2]
        · rw [if_neg h2]
          have hxd : x < d := by omega
          show streakGo prev (x :: xs) L C ≤
            streakGo prev (x :: insertSortedDistinct d xs) L C
          simp only [streakGo]
          by_cases h3 : x - prev = 1
          · rw [if_pos h3, if_pos h3]
            exact ih x hptail hxd L (C + 1)
          · rw [if_neg h3, if_neg h3]
            exact ih x hptail hxd (max L C) 1

theorem mem_insertSortedDistinct {d y : Int} :
    ∀ {l : List Int}, y ∈ insertSortedDistinct d l → y = d ∨ y ∈ l := by
  intro l
  induction l with
  | nil =>
      intro h
      simp only [insertSortedDistinct, List.mem_singleton] at h
      exact Or.inl h
  | cons x xs ih =>
      intro h
      unfold insertSortedDistinct at h
      split at h
      · rcases List.mem_cons.1 h with h | h
        · exact Or.inl h
        · exact Or.inr h
      · split at h
        · exact Or.inr h
        · rcases List.mem_cons.1 h with h | h
          · exact Or.inr (h ▸ List.mem_cons_self _ _)
          · rcases ih h with h | h
            · exact Or.inl h
            · exact Or.inr (List.mem_cons_of_mem _ h)

theorem pairwise_insertSortedDistinct (d : Int) :
    ∀ (l : List Int), List.Pairwise (· < ·) l →
      List.Pairwise (· < ·) (insertSortedDistinct d l) := by
  intro l
  induction l with
  | nil =>
      intro _
      simp [insertSortedDistinct]
  | cons x xs ih =>
      intro hp
      have hhead := (List.pairwise_cons.1 hp).1
      have htail := (List.pairwise_cons.1 hp).2
      unfold insertSortedDistinct
      by_cases h1 : d < x
      · rw [if_pos h1]
        refine List.pairwise_cons.2 ⟨?_, hp⟩
        intro y hy
        rcases List.mem_cons.1 hy with hy | hy
        · omega
        · have := hhead y hy
          omega
      · by_cases h2 : d = x
        · rw [if_neg h1, if_pos h2]
          exact hp
        · rw [if_neg h1, if_neg h2]
          refine List.pairwise_cons.2 ⟨?_, ih htail⟩
          intro y hy
          rcases mem_insertSortedDistinct hy with hy | hy
          · omega
          · exact hhead y hy

/-- Inserting any day into a strictly ascending date list never
decreases the computed longest streak. -/
theorem longestStreak_insert_mono (d : Int) (l : List Int)
    (hl : List.Pairwise (· < ·) l) :
    longestStreakOfDates l ≤ longestStreakOfDates (insertSortedDistinct d l) := by
  cases l with
  | nil =>
      show 1 ≤ longestStreakOfDates [d]
      exact le_refl 1
  | cons x xs =>
      show streakGo x xs 0 1 ≤ longestStreakOfDates (insertSortedDistinct d (x :: xs))
      unfold insertSortedDistinct
      by_cases h1 : d < x
      · rw [if_pos h1]
        show streakGo x xs 0 1 ≤ streakGo d (x :: xs) 0 1
        simp only [streakGo]
        by_cases h2 : x - d = 1
        · rw [if_pos h2]
          exact streakGo_mono xs x 0 0 1 2 (le_refl 0) (by omega)
        · rw [if_neg h2]
          exact streakGo_mono xs x 0 (max 0 1) 1 1 (by omega) (le_refl 1)
      · by_cases h2 : d = x
        · rw [if_neg h1, if_pos h2]
          exact le_refl _
        · rw [if_neg h1, if_neg h2]
          show streakGo x xs 0 1 ≤ streakGo x (insertSortedDistinct d xs) 0 1
          exact streakGo_insert d xs x hl (by omega) 0 1

theorem pairwise_sortedDistinctDates (l : List Int) :
    List.Pairwise (· < ·) (sortedDistinctDates l) := by
  induction l with
  | nil => simp [sortedDistinctDates]
  | cons a l ih =>
      show List.Pairwise (· < ·) (insertSortedDistinct a (sortedDistinctDates l))
      exact pairwise_insertSortedDistinct a _ ih

theorem sortedDistinctDates_const (D : Int) :
    ∀ (l : List Int), l ≠ [] → (∀ x ∈ l, x = D) →
      sortedDistinctDates l = [D] := by
  intro l
  induction l with
  | nil => intro h; exact absurd rfl h
  | cons a l ih =>
      intro _ hall
      have ha : a = D := hall a (List.mem_cons_self _ _)
      show insertSortedDistinct a (sortedDistinctDates l) = [D]
      cases l with
      | nil =>
          show insertSortedDistinct a [] = [D]
          simp [insertSortedDistinct, ha]
      | cons b l2 =>
          rw [ih (by simp) (fun x hx => hall x (List.mem_cons_of_mem _ hx)), ha]
          simp [insertSortedDistinct]

/-- C4.  The longest-streak computation of the patterns facet is
monotone under adding a post, and a nonempty post set whose posts all
fall on a single local calendar date yields streak exactly 1. -/
theorem longestStreak_monotone_and_single_day :
    (∀ (posts : List FeedItem) (p : FeedItem) (profile : Profile)
      (targetYear : Int) (likesOf repostsOf : String → List Actor)
      (fi mi : Option Nat) (tz : Int),
      (analyzeRecapCore posts profile targetYear likesOf repostsOf fi mi
          tz).patterns.longestStreak ≤
      (analyzeRecapCore (p :: posts) profile targetYear likesOf repostsOf fi mi
          tz).patterns.longestStreak) ∧
    (∀ (posts : List FeedItem) (profile : Profile) (targetYear : Int)
      (likesOf repostsOf : String → List Actor) (fi mi : Option Nat) (tz : Int)
      (D : Int),
      posts ≠ [] →
      (∀ q ∈ posts, (localOf tz q).dayNumber = D) →
      (analyzeRecapCore posts profile targetYear likesOf repostsOf fi mi
          tz).patterns.longestStreak = 1) := by
  constructor
  · intro posts p profile targetYear likesOf repostsOf fi mi tz
    show longestStreakOfDates (postDatesOf tz posts) ≤
      longestStreakOfDates (postDatesOf tz (p :: posts))
    show longestStreakOfDates (sortedDistinctDates (posts.map
        (fun i => (localOf tz i).dayNumber))) ≤
      longestStreakOfDates (insertSortedDistinct ((localOf tz p).dayNumber)
        (sortedDistinctDates (posts.map (fun i => (localOf tz i).dayNumber))))
    exact longestStreak_insert_mono _ _ (pairwise_sortedDistinctDates _)
  · intro posts profile targetYear likesOf repostsOf fi mi tz D hne hall
    show longestStreakOfDates (sortedDistinctDates (posts.map
        (fun i => (localOf tz i).dayNumber))) = 1
    rw [sortedDistinctDates_const D _ (by simpa using hne) ?_]
    · rfl
    · intro x hx
      rcases List.mem_map.1 hx with ⟨q, hq, hqx⟩
      rw [← hqx]
      exact hall q hq

/-- Witness for C4: a two-post single-day set has streak exactly 1, and
adding a next-day post does not decrease the streak (it becomes 2 ≥ 1). -/
theorem longestStreak_monotone_witness :
    (analyzeRecapCore [lateEveningPost] subjectProfile 2025 noEdges noEdges
        (some 1) (some 100) 0).patterns.longestStreak ≤
    (analyzeRecapCore [otherAuthorItem, lateEveningPost] subjectProfile 2025
        noEdges noEdges (some 1) (some 100) 0).patterns.longestStreak ∧
    (analyzeRecapCore [lateEveningPost] subjectProfile 2025 noEdges noEdges
        (some 1) (some 100) 0).patterns.longestStreak = 1 := by
  constructor
  · exact longestStreak_monotone_and_single_day.1 [lateEveningPost]
      otherAuthorItem subjectProfile 2025 noEdges noEdges (some 1) (some 100) 0
  · exact longestStreak_monotone_and_single_day.2 [lateEveningPost]
      subjectProfile 2025 noEdges noEdges (some 1) (some 100) 0
      (daysFromCivil 2025 6 15) (by decide) (by decide)

end Updraft
